import Mathlib

namespace TerrainGen

/-! ### CPython's seeded pseudo-random generator

`NoiseGenerator.__init__` builds its permutation table with
`random.seed(self.seed)` followed by `random.shuffle(self.perm)` on
`list(range(256))`.  Those two stdlib calls are deterministic functions of the
seed: MT19937 seeded through init_by_array, and Fisher-Yates driven by
`_randbelow`/`getrandbits`.  They are modelled here word for word after
CPython's `_randommodule.c` / `random.py` and validated against CPython 3.11
output for the concrete seeds evaluated below. -/

/-- The modulus 2^32 of the 32-bit arithmetic in MT19937. -/
def U32 : ℕ := 4294967296

def mask32 (n : ℕ) : ℕ := n % U32

/-- One step of MT19937 init_genrand: mt[i] from mt[i-1]. -/
def initStep (prev i : ℕ) : ℕ :=
  mask32 (1812433253 * (prev ^^^ (prev >>> 30)) + i)

def initFrom (prev i : ℕ) : ℕ → List ℕ
  | 0 => []
  | n + 1 =>
    let v := initStep prev i
    v :: initFrom v (i + 1) n

/-- MT19937 init_genrand(s): the initial 624-word state. -/
def mtInitGenrand (s : ℕ) : List ℕ :=
  mask32 s :: initFrom (mask32 s) 1 623

/-- Mixing function of the first init_by_array loop (single-word key k). -/
def mixA (k prev cur : ℕ) : ℕ :=
  mask32 ((cur ^^^ mask32 ((prev ^^^ (prev >>> 30)) * 1664525)) + k)

/-- Mixing function of the second init_by_array loop at position i
(uint32 subtraction of the position). -/
def mixB (i prev cur : ℕ) : ℕ :=
  (mask32 (cur ^^^ mask32 ((prev ^^^ (prev >>> 30)) * 1566083941)) + U32 - i) % U32

/-- Sequential state pass, one element per step: the state is
(carry, position, remaining input, reversed output). -/
def passSteps (f : ℕ → ℕ → ℕ → ℕ) : ℕ → ℕ × ℕ × List ℕ × List ℕ → ℕ × ℕ × List ℕ × List ℕ
  | 0, st => st
  | _ + 1, (prev, i, [], acc) => (prev, i, [], acc)
  | k + 1, (prev, i, c :: rest, acc) =>
    let v := f i prev c
    passSteps f k (v, i + 1, rest, v :: acc)

/-- Run a sequential pass of n steps over l, carry seeded with prev,
positions from i. -/
def passAll (f : ℕ → ℕ → ℕ → ℕ) (prev i n : ℕ) (l : List ℕ) : List ℕ :=
  ((passSteps f n (prev, i, l, [])).2.2.2).reverse

/-- First init_by_array loop (624 rounds): positions 1..623, wrap
mt[0] := mt[623], then one more round at position 1. -/
def ibaLoop1 (s : ℕ) (l0 : List ℕ) : List ℕ :=
  let h := l0.headD 0
  let t := l0.tail
  let t1 := passAll (fun _ prev cur => mixA s prev cur) h 1 623 t
  let m0 := t1.getD 622 0
  m0 :: mixA s m0 (t1.getD 0 0) :: t1.drop 1

/-- Second init_by_array loop (623 rounds): positions 2..623, wrap, one round
at position 1, then mt[0] := 0x80000000. -/
def ibaLoop2 (l1 : List ℕ) : List ℕ :=
  let v1 := l1.getD 1 0
  let rest := l1.drop 2
  let t2 := passAll mixB v1 2 622 rest
  let m0' := t2.getD 621 0
  2147483648 :: mixB 1 m0' v1 :: t2

def ibaMix (s : ℕ) (l0 : List ℕ) : List ℕ := ibaLoop2 (ibaLoop1 s l0)

/-- MT19937 init_by_array with the single-word key [s], which is what CPython
random.seed(s) performs for 0 ≤ s < 2^32. -/
def initByArray1 (s : ℕ) : List ℕ := ibaMix s (mtInitGenrand 19650218)

/-- y = (mt[i] & 0x80000000) | (mt[i+1] & 0x7fffffff); the new state word from
mt[i], mt[i+1] and mt[(i+397) mod 624]. -/
def twistVal (a b c : ℕ) : ℕ :=
  let y := (a &&& 2147483648) ||| (b &&& 2147483647)
  c ^^^ (y >>> 1) ^^^ (if y % 2 = 1 then 2567483615 else 0)

def twistVal3 : ℕ × ℕ × ℕ → ℕ
  | (a, b, c) => twistVal a b c

/-- Phase 2 of the state twist: positions 227..622 read the freshly written
word 227 positions back; a FIFO queue (front, back) carries those words. -/
def twistPhase2 : List (ℕ × ℕ) → List ℕ → List ℕ → List ℕ
  | [], _, _ => []
  | (a, b) :: rest, f :: front, back =>
    let v := twistVal a b f
    v :: twistPhase2 rest front (v :: back)
  | (a, b) :: rest, [], back =>
    match back.reverse with
    | [] => []
    | f :: front =>
      let v := twistVal a b f
      v :: twistPhase2 rest front [v]

/-- The MT19937 state twist (the next 624 words), with the in-place reading
pattern of the C loop: position i < 227 reads the old word i+397, later
positions read already-rewritten words. -/
def mtTwist (mt : List ℕ) : List ℕ :=
  let p1 := (mt.zip ((mt.drop 1).zip (mt.drop 397))).map twistVal3
  let pairs2 := (mt.drop 227).zip (mt.drop 228)
  let p2 := twistPhase2 pairs2 p1 []
  let all0 := p1 ++ p2
  let last := twistVal (mt.getD 623 0) (p1.headD 0) (all0.getD 396 0)
  all0 ++ [last]

/-- MT19937 tempering of one output word. -/
def temper (y0 : ℕ) : ℕ :=
  let y1 := y0 ^^^ (y0 >>> 11)
  let y2 := y1 ^^^ ((y1 <<< 7) &&& 2636928640)
  let y3 := y2 ^^^ ((y2 <<< 15) &&& 4022730752)
  y3 ^^^ (y3 >>> 18)

structure MTState where
  mt : List ℕ
  idx : ℕ
  deriving Repr, DecidableEq

/-- genrand_uint32: twist when the 624 words are exhausted, then temper the
next word. -/
def genrand (st : MTState) : ℕ × MTState :=
  if st.idx ≥ 624 then
    let mt' := mtTwist st.mt
    (temper (mt'.getD 0 0), ⟨mt', 1⟩)
  else
    (temper (st.mt.getD st.idx 0), ⟨st.mt, st.idx + 1⟩)

def bitLenFuel : ℕ → ℕ → ℕ
  | 0, _ => 0
  | f + 1, n => if n = 0 then 0 else bitLenFuel f (n / 2) + 1

/-- int.bit_length, fuel-based so that it reduces in the kernel. -/
def bitLen (n : ℕ) : ℕ := bitLenFuel 64 n

/-- getrandbits(k) for 1 ≤ k ≤ 32. -/
def getrandbits (k : ℕ) (st : MTState) : ℕ × MTState :=
  let (r, st') := genrand st
  (r >>> (32 - k), st')

/-- CPython _randbelow(n) for n ≥ 1: rejection sampling on bit_length(n)-bit draws.
The fuel merely bounds the rejection loop; it is never exhausted in the
evaluations performed in this file. -/
def randbelow (n : ℕ) : ℕ → MTState → ℕ × MTState
  | 0, st => (0, st)
  | fuel + 1, st =>
    let k := bitLen n
    let (r, st') := getrandbits k st
    if r < n then (r, st') else randbelow n fuel st'

/-- Swap positions i and j of a list. -/
def swapAt (l : List ℕ) (i j : ℕ) : List ℕ :=
  let xi := l.getD i 0
  let xj := l.getD j 0
  (l.set i xj).set j xi

/-- One Fisher-Yates iteration of random.shuffle: draw j = _randbelow(i+1) and
swap positions i and j (the counter component is the current i). -/
def shuffleStep : MTState × List ℕ × ℕ → MTState × List ℕ × ℕ
  | (st, l, 0) => (st, l, 0)
  | (st, l, i + 1) =>
    let (j, st') := randbelow (i + 2) 64 st
    (st', swapAt l (i + 1) j, i)

def shuffleSteps : ℕ → MTState × List ℕ × ℕ → MTState × List ℕ × ℕ
  | 0, s => s
  | k + 1, s => shuffleSteps k (shuffleStep s)

/-- The tempered word stream starts on a freshly twisted state: random.seed
leaves the word index exhausted, so the first draw twists. -/
def mtSeedState (s : ℕ) : List ℕ := mtTwist (initByArray1 s)

/-- The permutation that CPython `random.seed(s); random.shuffle(p)` produces
on p = list(range(256)): 255 Fisher-Yates steps with i descending from 255.
Validated against CPython 3.11 output for the seeds evaluated below. -/
def pyPermOfSeed (s : ℕ) : List ℕ :=
  (shuffleSteps 255 (⟨mtSeedState s, 0⟩, List.range 256, 255)).2.1

def stageL0 : List ℕ := [19650218, 2194844435, 874550967, 1417962806, 719805879, 2188372024, 721660136, 1814940559, 2833403150, 3889680837, 1003665704, 1330738387, 2892331238, 3489052161, 3855278296, 3311200630, 1422571577, 2585306665, 2882769417, 2783805802, 4207719964, 2400416080, 2341377904, 2590753297, 3924081815, 1211472509, 3057012486, 3436335279, 551149560, 1318655221, 1900533858, 3537525294, 2107812065, 3148644481, 594136785, 1814262168, 1224061569, 653651109, 254650943, 2832785922, 3699583528, 2088609312, 3529585711, 41492871, 2876012911, 4240588078, 1402615791, 1934126869, 3096545044, 2890863071, 80499043, 970921794, 3007610686, 750866145, 799115259, 3629971774, 2864380489, 3888374480, 2087741561, 3146346387, 3269762417, 2727485495, 2488668711, 2964190680, 2116659522, 4141458096, 3537107937, 3667677805, 2429248426, 2452306317, 3015982257, 499957222, 2360410630, 4194693085, 147288288, 3359074475, 1635136148, 4073107990, 3628367767, 3898116531, 275612352, 2842514961, 3115851985, 3103448722, 302309156, 22171017, 2075519075, 3671007489, 3949991970, 1963601502, 4167967445, 804406473, 1055110313, 3894654986, 2278780139, 34711884, 4121261916, 3468881884, 2287991389, 393453278, 548699130, 1499706375, 332872900, 1556864443, 1043137738, 4174970395, 1614747618, 669116410, 1897615374, 3255278936, 1370736725, 1550777747, 1685794058, 1862314184, 2400528575, 2672900100, 1647333586, 3524644532, 1765506473, 2857335743, 3636393737, 2932986219, 1203228647, 1628511289, 3647085204, 2987412752, 2905279128, 2631768385, 4014428911, 1727529885, 1124854030, 2262104686, 2499713312, 2421398767, 4134715143, 2358935835, 1002066021, 340444514, 3268366900, 1112268606, 1897974631, 3331577291, 2922602614, 3423543891, 1267030560, 2344564886, 1942259446, 3179572998, 1573187880, 1205933762, 3025229445, 4246102746, 346693941, 2002220930, 1829519945, 3309743875, 1904872348, 955816590, 2796353700, 668528669, 2648785169, 2704726048, 893089804, 738773343, 2832484895, 2050343702, 104744889, 3439545764, 980222603, 422274176, 3865519914, 2026267864, 539814729, 4137805178, 1140607595, 2537690753, 3971218783, 1931293181, 3089667358, 1133695167, 399772074, 3682192071, 4293649418, 1029228868, 3902327948, 1974090788, 3344730195, 2795804747, 3396216457, 366677807, 416687433, 930072460, 901228284, 1521860141, 3484259358, 478803252, 3138556488, 4137898487, 3807832586, 3773310804, 3221624091, 3076008769, 4156878137, 406561453, 3897607181, 623564883, 2247148685, 1696011322, 2911604503, 3979653402, 742342831, 3881512158, 2282092805, 2681274264, 3681829528, 46152446, 3126539534, 3635632789, 1012335624, 3686064131, 2587648220, 2008745587, 2556071384, 1788453345, 861781568, 2727104545, 758340017, 1880693944, 2136364769, 1370367813, 798286522, 506003017, 2520802485, 2991500316, 3489134272, 3275208410, 1640252809, 3797759893, 4271912220, 3111882026, 140581304, 2568658569, 2686841033, 3059852298, 293994524, 1890650113, 1797269750, 3428669802, 1401714789, 2643788909, 3727894469, 2833360921, 1622853283, 3832221927, 277065458, 3711010937, 4192871202, 3356722694, 680496635, 2574997514, 1476265004, 3232676806, 3318710975, 4210635059, 4159903992, 2116300560, 2532158399, 718792604, 2539969944, 3164133583, 2649636591, 2200349072, 2851998122, 670873689, 2613796143, 3562264788, 1174445287, 1149173203, 2225964784, 4266377361, 3119455410, 1518371465, 1816545474, 2516586762, 240910660, 2681595121, 1301176317, 3127753611, 862342957, 771183330, 438085196, 1046497567, 922186079, 1222939296, 51184555, 1757804190, 426665187, 2730510776, 2573705612, 1312406577, 667742236, 3239950393, 2582034960, 3759737929, 1601926242, 2947737408, 975540284, 1285948639, 3761027786, 1226457986, 34782949, 2916146832, 142734034, 569716755, 4042990521, 3947471773, 1575951506, 3517313596, 3100986137, 2199197158, 3376719924, 4087139828, 3705107125, 1482533137, 1541227668, 1678953742, 2056318769, 3045003063, 1622629937, 487578169, 4137196231, 3764647071, 2241527512, 2558474063, 1038354351, 2094837850, 2481932343, 3229539130, 3756851151, 1006180559, 4181103103, 3565909441, 2371373280, 1493415041, 160348120, 1285104017, 3595587370, 4264242568, 1161124915, 2042766103, 737713932, 3481808155, 478389208, 1300643225, 1007986266, 1168231653, 3652705112, 2909421388, 3924670764, 1731016690, 4084014919, 4205099837, 1373900512, 2937538864, 2730075174, 957417377, 3258199283, 87174175, 792789163, 2527971304, 2716998340, 3091367825, 97659251, 1782441684, 919015551, 735476370, 87326482, 926205331, 1888657273, 3715638227, 1715499660, 1922410526, 4175228089, 1525608673, 3578587616, 2042086160, 3730509879, 3607443975, 3879209240, 3652717612, 2372597521, 3471943430, 2765853569, 3643232056, 3297105617, 2692883557, 1805942063, 1394934451, 3337180104, 1181922214, 2331394419, 306465830, 3736887952, 1729663122, 3390355091, 2379159653, 3851731257, 4021176185, 1079541434, 433656928, 1831627642, 2892512290, 4063025724, 406246264, 1293199350, 1120564498, 3926678815, 1350089133, 4273098366, 3385122292, 993379095, 725502136, 25504318, 752278045, 3729298457, 2392480235, 2657233815, 320925812, 2950230896, 989728679, 506301841, 1404204260, 1413065993, 865242585, 866785615, 1859142878, 589268143, 775553472, 1410495094, 1607063978, 3888932143, 704411669, 3513884419, 3370826939, 2896358996, 439226283, 2352722741, 1626809714, 246502175, 189424636, 1337937966, 3719088974, 4178799653, 2794717891, 1831166187, 1862432793, 2263235392, 3847861459, 802662362, 3621709005, 2634319122, 3245216029, 1466421412, 1528864744, 349292989, 3152395874, 3374677426, 2279952808, 1238578150, 107682552, 913857966, 3747681661, 3560958606, 3617063034, 1988620951, 1854864649, 1862999556, 2962654934, 1498851202, 2003448718, 2942754891, 798789550, 3882536840, 3338815162, 3066948065, 2057094004, 4171611151, 4284063395, 2325690120, 2659914459, 165909127, 2783186990, 2161504072, 343671839, 2751150377, 3621950182, 222528329, 3219381950, 238911006, 2710753737, 2982111755, 1115859074, 156211365, 228231184, 2302165064, 933165355, 4181545713, 2201173365, 291303663, 19134280, 3581811046, 68817880, 1037069880, 2445243929, 2507869609, 1468655994, 2646143627, 2709652242, 559859542, 2657856757, 248278651, 656698256, 2682159578, 3542996035, 2775252812, 1761180115, 3646714856, 2330951878, 834843492, 3951905925, 744286448, 3621804227, 2822882772, 1168938371, 3349647456, 672527398, 1163635478, 3445281068, 722448549, 3543924788, 2823456463, 1931863550, 2483173049, 4148604134, 3081487737, 2916138664, 940193076, 4142650279, 2563327448, 3737140007, 2407111514, 243557343, 1657192483, 3995730323, 1012445178, 2365602253, 2830079959, 2287658550, 2893719730, 2373631903, 4215513121, 189686171, 2003138393, 3410898923, 1020530876, 1103312993, 1976606742, 899447370, 1949555562, 3167671920, 595304244, 1919198655, 2929333298, 619161901, 623498751, 2063591130, 763251111, 4291719204, 3951567013, 2998385089, 758818611, 1375945828, 2510752543, 4188334520, 121785359, 3225750324, 1354685949, 1643999927, 911976986, 518523023, 3993561529, 2326708913, 336174575, 853096604, 2873283550, 4022490143, 3010604384, 2080594943, 1702902668, 3360749048, 4184957279, 2421794725, 4155016765, 3104188113, 1576615579, 604774175, 2739462297, 4096823942, 1932918233, 1779286169, 2544260698, 1430072091, 2196303270, 4237199385, 2613550760, 1481676153, 2920297152, 2463881971, 1098865791, 2939219489, 2494804283, 3108728554, 1635052534, 2905164258]
def passB1 : List ℕ := [4287170994, 2990249291, 170315652, 342653956, 3709864973, 131045471, 2443861341, 3452164830, 1013775101, 1005336050, 575561114, 3073729589, 2465576651, 3542466286, 2910767488, 1436991396, 451469129, 1597570749, 3461502695, 1071511433, 1414813350, 3532875532, 3882416083, 797296904, 295304982, 2678912793, 3945930481, 3478659507, 2710356230, 1396096343, 1413987185, 1474399314, 3017061047, 2009595873, 2916634617, 2611520319, 796554429, 2501743015, 998097252, 3753345085, 2198180103, 3672928111, 831230460, 3400575140, 3669501782, 29944511, 1647012519, 175704443, 44068065, 2873916431, 1883991532, 3464657976, 3072564767, 3238138499, 3064269247, 1359820497, 1544636993, 2898668858, 2634413132, 4138133128, 729429817, 3750793667, 2156139289, 2111640350, 2701586468, 3060575760, 1245597832, 3865759584, 278119307, 2084138175, 3540026433, 1520042333, 3797767794, 686823774, 4031632750, 1876194846, 791145350, 2494572122, 2458487756, 4121145271, 1888023094, 1466766875, 3071845825, 1548993476, 791421577, 567590551, 3266573995, 1185050283, 1778087165, 110328346, 727698332, 2145045062, 2206218130, 3076873916, 4133628651, 622455445, 3499599950, 4229481397, 3748784865, 2361688705, 1772512929, 3156331237, 2312473089, 2970431726, 4276977128, 3188789518, 976568935, 3626187062, 1522899178, 341487035, 2105059821, 1855686135, 3310057911, 1995689628, 3277337598, 1104552204, 827987230, 483425072, 622074576, 1538968474, 1500432821, 640039364, 2919766734, 1986051785, 2187668793, 4106274664, 711744303, 3559590285, 3156480940, 2594290393, 215500146, 238447595, 1642430465, 534069000, 807658100, 3772442498, 717153008, 2705486853, 3171053926, 3560001908, 2802211009, 59265938, 1685407802, 2851763936, 2190945773, 697633238, 3387337945, 1461408315, 288448049, 159586553, 3673823360, 1038635411, 3689988598, 1684157753, 2851056860, 1882206427, 2479607197, 1868641208, 1212458617, 3664315658, 3422621526, 1917705566, 1583865485, 1095393028, 1076499032, 3592233789, 563098499, 181325101, 3800972746, 3491700256, 2445745440, 3039227380, 74578949, 55345195, 3177493167, 3699441047, 672459130, 2468930093, 2589714141, 398105338, 1809494134, 669156354, 370362719, 283467616, 3853265861, 1322882398, 4000577433, 3036334172, 3093606378, 2953673602, 1745584653, 2753938529, 3579893035, 4100806423, 1740280113, 1930489145, 914033200, 705187451, 4217100652, 1478840761, 3828636954, 2096455037, 619349474, 2348948600, 2658457186, 222946926, 4200174509, 2129288386, 215209726, 554065482, 2336581917, 1986677143, 328040199, 487555012, 571846155, 3890089346, 1240616729, 981372977, 2703046783, 3440299142, 1065445043, 1470235856, 320284029, 3909880602, 368432741, 771127441, 1068497382, 3215000144, 1303768432, 2977297928, 400000204, 2592563946, 3233733077, 3583354143, 1529429175, 2630540472, 3123996392, 2619621631, 17471476, 344585949, 2280130993, 3976536287, 4290246439, 2060838089, 3174909482, 3034097919, 3478600628, 1302039087, 4125580348, 1939140343, 590188136, 3096407532, 2771941874, 3697311683, 3233641658, 1440448584, 2423267252, 865447366, 2740449029, 4221364600, 3652151034, 982512155, 43007085, 2012768114, 1429487048, 3121320587, 1955455338, 3776760312, 485202801, 402707539, 3415765928, 3380152326, 455663129, 3251200107, 2845347229, 2142443509, 1779012280, 61779862, 288452112, 3909347939, 494249066, 9690529, 9008680, 1537929549, 3421203502, 4127011765, 3612450742, 1041397021, 3701068444, 358525536, 1332785152, 671426387, 2783806360, 3934521722, 428754876, 3880052848, 1150867056, 3411757106, 4044786765, 3395732459, 2616449778, 4025156641, 3657420276, 1146596330, 2673130416, 341697591, 4155999253, 2033501141, 74590791, 3582054783, 2885408221, 4249240706, 2910900383, 1896154689, 2998366942, 1065312703, 1471472272, 508234821, 543492200, 1910928765, 3875771065, 2803498440, 4168611412, 593520896, 313104399, 607739379, 1785501793, 3979256530, 2611564709, 3365025981, 485843258, 1044903211, 1593221729, 3481041232, 2249755502, 2813809740, 200966349, 551798695, 3616912821, 2934976450, 3933444354, 1790338030, 2154363299, 2953667830, 1847753206, 3945256098, 1834868646, 2300229961, 3443550681, 1195680543, 719327646, 810580703, 3377736395, 3553458803, 3498449750, 1756862986, 783027140, 4168944089, 29191137, 3959308075, 2304745014, 3558067781, 1628443839, 4263208321, 2190931004, 1664956374, 3882374133, 2877769686, 916249133, 850925710, 3938276520, 2782808029, 1804494472, 11655819, 376963486, 404715029, 2105972867, 2514032100, 3813532542, 2894932438, 1696350171, 1492580012, 1532396585, 3602403305, 1555728883, 1598717310, 288015221, 406946794, 3993297615, 2749512526, 2390289883, 29497733, 841221882, 1367351396, 4207200069, 4070473634, 3166348191, 706121522, 1516732973, 27092304, 2724743479, 740276002, 2784839721, 2932112061, 2823179735, 3455389929, 782717084, 2810265943, 2067544882, 1686911214, 625811970, 8739879, 830137476, 2251986243, 4177530720, 3250677529, 2802328064, 4120561765, 2137918683, 2848604166, 1578406029, 399127843, 3658317531, 135861474, 4281352850, 775949515, 218921020, 4039045245, 4079773122, 3884490077, 3714254115, 1712041898, 3453714551, 1192076460, 1323503128, 4203293163, 1500221705, 3289775903, 4256613831, 3807659996, 4130207815, 3734318200, 3718641797, 187427995, 915262069, 2238797509, 137664362, 652787582, 1646366363, 137415165, 1225180312, 1670290913, 3935389348, 3706929297, 492047220, 2664363941, 1395108265, 3084069459, 1302366417, 3741144963, 240410782, 2672954531, 1489720774, 4064177319, 1939694135, 3795909901, 2677750815, 2591664288, 3478849219, 1131907695, 1301729004, 3892320904, 3183459190, 591875700, 3015429870, 1158453241, 3992846671, 864091999, 2230968926, 3300640488, 337720386, 3180936403, 1483610664, 1556694005, 4035143697, 1128319206, 666673945, 2443053390, 3685601800, 3849625097, 691671725, 2392657794, 1104858528, 960015877, 2891007656, 94491116, 4244926019, 1868195679, 1701208592, 894544599, 2897542762, 3019490286, 3293606637, 3056003679, 2482048403, 418587821, 988411837, 2035749495, 2842625207, 2572042840, 1982409035, 1393883899, 2277846188, 1152750976, 669717752, 540676628, 731439127, 588598398, 582400660, 3302891520, 2272770488, 668994473, 3182115287, 635646622, 215744470, 2455581239, 4245039736, 1166186844, 1633459005, 741679869, 45665307, 454679180, 1084454048, 198804046, 3582019025, 1874828477, 2664631457, 1218717411, 819594575, 1974221261, 1318572707, 2574649476, 1346338345, 114204018, 2794181731, 3510328282, 3357995939, 3781516025, 1745813910, 3831342578, 334237923, 3575942565, 3601552638, 1260237092, 2092139821, 1977015532, 2739814464, 327100393, 6710091, 2018921711, 151575950, 3623002992, 1373843773, 1104640177, 3136583826, 3646152519, 1950815295, 1200185421, 2030763437, 1863775881, 2949124440, 4215712161, 1578663960, 697344699, 3683525542, 1861665991, 3549073963, 3517283502, 1934555913, 4227156060, 3314729656, 334130785, 3422529878, 3313646431, 2004525209, 3434113606, 1911853367, 1607944613, 3366067676, 1558296555, 372854868, 3675722156, 966240128, 531780191, 1541758157, 2935542589, 3690434509, 3162266363, 3366986078, 1495326439, 4087960076, 778740479, 2051327523, 2822284578, 415710656, 254820954, 2392696853, 168578803, 1975653583, 3236262957, 3310489934, 3934020432, 3597767983, 759661973, 2402857961, 3247699504, 1095567461, 2507807084, 371454136, 1728526436, 620262860, 17672363, 1521613646]
def stageB1 : List ℕ := [1521613646, 4033557682, 2990249291, 170315652, 342653956, 3709864973, 131045471, 2443861341, 3452164830, 1013775101, 1005336050, 575561114, 3073729589, 2465576651, 3542466286, 2910767488, 1436991396, 451469129, 1597570749, 3461502695, 1071511433, 1414813350, 3532875532, 3882416083, 797296904, 295304982, 2678912793, 3945930481, 3478659507, 2710356230, 1396096343, 1413987185, 1474399314, 3017061047, 2009595873, 2916634617, 2611520319, 796554429, 2501743015, 998097252, 3753345085, 2198180103, 3672928111, 831230460, 3400575140, 3669501782, 29944511, 1647012519, 175704443, 44068065, 2873916431, 1883991532, 3464657976, 3072564767, 3238138499, 3064269247, 1359820497, 1544636993, 2898668858, 2634413132, 4138133128, 729429817, 3750793667, 2156139289, 2111640350, 2701586468, 3060575760, 1245597832, 3865759584, 278119307, 2084138175, 3540026433, 1520042333, 3797767794, 686823774, 4031632750, 1876194846, 791145350, 2494572122, 2458487756, 4121145271, 1888023094, 1466766875, 3071845825, 1548993476, 791421577, 567590551, 3266573995, 1185050283, 1778087165, 110328346, 727698332, 2145045062, 2206218130, 3076873916, 4133628651, 622455445, 3499599950, 4229481397, 3748784865, 2361688705, 1772512929, 3156331237, 2312473089, 2970431726, 4276977128, 3188789518, 976568935, 3626187062, 1522899178, 341487035, 2105059821, 1855686135, 3310057911, 1995689628, 3277337598, 1104552204, 827987230, 483425072, 622074576, 1538968474, 1500432821, 640039364, 2919766734, 1986051785, 2187668793, 4106274664, 711744303, 3559590285, 3156480940, 2594290393, 215500146, 238447595, 1642430465, 534069000, 807658100, 3772442498, 717153008, 2705486853, 3171053926, 3560001908, 2802211009, 59265938, 1685407802, 2851763936, 2190945773, 697633238, 3387337945, 1461408315, 288448049, 159586553, 3673823360, 1038635411, 3689988598, 1684157753, 2851056860, 1882206427, 2479607197, 1868641208, 1212458617, 3664315658, 3422621526, 1917705566, 1583865485, 1095393028, 1076499032, 3592233789, 563098499, 181325101, 3800972746, 3491700256, 2445745440, 3039227380, 74578949, 55345195, 3177493167, 3699441047, 672459130, 2468930093, 2589714141, 398105338, 1809494134, 669156354, 370362719, 283467616, 3853265861, 1322882398, 4000577433, 3036334172, 3093606378, 2953673602, 1745584653, 2753938529, 3579893035, 4100806423, 1740280113, 1930489145, 914033200, 705187451, 4217100652, 1478840761, 3828636954, 2096455037, 619349474, 2348948600, 2658457186, 222946926, 4200174509, 2129288386, 215209726, 554065482, 2336581917, 1986677143, 328040199, 487555012, 571846155, 3890089346, 1240616729, 981372977, 2703046783, 3440299142, 1065445043, 1470235856, 320284029, 3909880602, 368432741, 771127441, 1068497382, 3215000144, 1303768432, 2977297928, 400000204, 2592563946, 3233733077, 3583354143, 1529429175, 2630540472, 3123996392, 2619621631, 17471476, 344585949, 2280130993, 3976536287, 4290246439, 2060838089, 3174909482, 3034097919, 3478600628, 1302039087, 4125580348, 1939140343, 590188136, 3096407532, 2771941874, 3697311683, 3233641658, 1440448584, 2423267252, 865447366, 2740449029, 4221364600, 3652151034, 982512155, 43007085, 2012768114, 1429487048, 3121320587, 1955455338, 3776760312, 485202801, 402707539, 3415765928, 3380152326, 455663129, 3251200107, 2845347229, 2142443509, 1779012280, 61779862, 288452112, 3909347939, 494249066, 9690529, 9008680, 1537929549, 3421203502, 4127011765, 3612450742, 1041397021, 3701068444, 358525536, 1332785152, 671426387, 2783806360, 3934521722, 428754876, 3880052848, 1150867056, 3411757106, 4044786765, 3395732459, 2616449778, 4025156641, 3657420276, 1146596330, 2673130416, 341697591, 4155999253, 2033501141, 74590791, 3582054783, 2885408221, 4249240706, 2910900383, 1896154689, 2998366942, 1065312703, 1471472272, 508234821, 543492200, 1910928765, 3875771065, 2803498440, 4168611412, 593520896, 313104399, 607739379, 1785501793, 3979256530, 2611564709, 3365025981, 485843258, 1044903211, 1593221729, 3481041232, 2249755502, 2813809740, 200966349, 551798695, 3616912821, 2934976450, 3933444354, 1790338030, 2154363299, 2953667830, 1847753206, 3945256098, 1834868646, 2300229961, 3443550681, 1195680543, 719327646, 810580703, 3377736395, 3553458803, 3498449750, 1756862986, 783027140, 4168944089, 29191137, 3959308075, 2304745014, 3558067781, 1628443839, 4263208321, 2190931004, 1664956374, 3882374133, 2877769686, 916249133, 850925710, 3938276520, 2782808029, 1804494472, 11655819, 376963486, 404715029, 2105972867, 2514032100, 3813532542, 2894932438, 1696350171, 1492580012, 1532396585, 3602403305, 1555728883, 1598717310, 288015221, 406946794, 3993297615, 2749512526, 2390289883, 29497733, 841221882, 1367351396, 4207200069, 4070473634, 3166348191, 706121522, 1516732973, 27092304, 2724743479, 740276002, 2784839721, 2932112061, 2823179735, 3455389929, 782717084, 2810265943, 2067544882, 1686911214, 625811970, 8739879, 830137476, 2251986243, 4177530720, 3250677529, 2802328064, 4120561765, 2137918683, 2848604166, 1578406029, 399127843, 3658317531, 135861474, 4281352850, 775949515, 218921020, 4039045245, 4079773122, 3884490077, 3714254115, 1712041898, 3453714551, 1192076460, 1323503128, 4203293163, 1500221705, 3289775903, 4256613831, 3807659996, 4130207815, 3734318200, 3718641797, 187427995, 915262069, 2238797509, 137664362, 652787582, 1646366363, 137415165, 1225180312, 1670290913, 3935389348, 3706929297, 492047220, 2664363941, 1395108265, 3084069459, 1302366417, 3741144963, 240410782, 2672954531, 1489720774, 4064177319, 1939694135, 3795909901, 2677750815, 2591664288, 3478849219, 1131907695, 1301729004, 3892320904, 3183459190, 591875700, 3015429870, 1158453241, 3992846671, 864091999, 2230968926, 3300640488, 337720386, 3180936403, 1483610664, 1556694005, 4035143697, 1128319206, 666673945, 2443053390, 3685601800, 3849625097, 691671725, 2392657794, 1104858528, 960015877, 2891007656, 94491116, 4244926019, 1868195679, 1701208592, 894544599, 2897542762, 3019490286, 3293606637, 3056003679, 2482048403, 418587821, 988411837, 2035749495, 2842625207, 2572042840, 1982409035, 1393883899, 2277846188, 1152750976, 669717752, 540676628, 731439127, 588598398, 582400660, 3302891520, 2272770488, 668994473, 3182115287, 635646622, 215744470, 2455581239, 4245039736, 1166186844, 1633459005, 741679869, 45665307, 454679180, 1084454048, 198804046, 3582019025, 1874828477, 2664631457, 1218717411, 819594575, 1974221261, 1318572707, 2574649476, 1346338345, 114204018, 2794181731, 3510328282, 3357995939, 3781516025, 1745813910, 3831342578, 334237923, 3575942565, 3601552638, 1260237092, 2092139821, 1977015532, 2739814464, 327100393, 6710091, 2018921711, 151575950, 3623002992, 1373843773, 1104640177, 3136583826, 3646152519, 1950815295, 1200185421, 2030763437, 1863775881, 2949124440, 4215712161, 1578663960, 697344699, 3683525542, 1861665991, 3549073963, 3517283502, 1934555913, 4227156060, 3314729656, 334130785, 3422529878, 3313646431, 2004525209, 3434113606, 1911853367, 1607944613, 3366067676, 1558296555, 372854868, 3675722156, 966240128, 531780191, 1541758157, 2935542589, 3690434509, 3162266363, 3366986078, 1495326439, 4087960076, 778740479, 2051327523, 2822284578, 415710656, 254820954, 2392696853, 168578803, 1975653583, 3236262957, 3310489934, 3934020432, 3597767983, 759661973, 2402857961, 3247699504, 1095567461, 2507807084, 371454136, 1728526436, 620262860, 17672363, 1521613646]
def passC1 : List ℕ := [3414454684, 213706556, 4107842212, 2345084137, 1370141154, 308032203, 1333762497, 62788148, 3897778028, 747877958, 1467715487, 3456091536, 2761063683, 1618744790, 1478419815, 1764113510, 846282508, 2723886408, 4169581479, 1502702845, 2646586442, 2469253028, 2959591262, 4098450497, 884511481, 335884721, 3599209546, 513139374, 3325056467, 728657986, 4258769976, 1345736399, 2025918085, 3316918730, 2943630414, 2227403036, 2570027851, 3647123330, 1428539568, 3871201705, 1751794003, 270064251, 1795576567, 1369598507, 618682879, 2451807245, 529121120, 3890334672, 1711572734, 3489061444, 651351815, 4134812839, 69921281, 166843555, 3639104358, 1220147039, 1949863666, 1735631448, 1274775129, 2568486724, 1135749407, 4184445328, 1474571425, 2839972547, 1408182003, 244421551, 3350038055, 1060682618, 4280572247, 1303862814, 2374039070, 2105482037, 3963285136, 1813783878, 3843306449, 1550621711, 3201633678, 3993032609, 2696521485, 1737817996, 2171565928, 2455244480, 1159916282, 512285753, 3858590612, 4026374369, 1315072297, 1616330716, 2575452881, 2244992328, 3829642776, 3110057432, 2014659424, 2754832975, 325146004, 2099885769, 2020308731, 1285440480, 3077009376, 2090384422, 1391632928, 3117180829, 446498285, 441350144, 2181843108, 2070907054, 159173329, 2146887474, 2552448310, 2804228090, 1104855231, 3423489232, 571551281, 2985027384, 2539165306, 297570257, 2726511311, 4153586362, 2738372079, 136762299, 632694665, 2321868360, 405387135, 3889854117, 3664524696, 2155352969, 3438225114, 1479423152, 3490667914, 1428754172, 4202177206, 3666900963, 1589695458, 1376009076, 2045844259, 2570438673, 4062196720, 2557681198, 3588069788, 3816335341, 1913661670, 2760431498, 473535928, 886428644, 3042733200, 3514611376, 1727272720, 1352272367, 1182350217, 2770160529, 1408757716, 1236436838, 2638114048, 2288958075, 1907848138, 2513183981, 430007381, 1410996817, 2893861882, 93734637, 889812797, 1746269177, 2955589432, 2154616085, 2341907336, 3667241034, 3612199480, 3276336868, 2147135321, 1218242541, 4191308092, 3390432817, 3936122595, 2082616352, 2829353186, 2952040553, 713551976, 2561783586, 1479607462, 3332321760, 1309567703, 22089850, 2486755466, 381044148, 159099040, 388730878, 609513646, 2552905871, 3544022117, 3805737844, 2227334610, 2494928250, 3378607757, 3524817012, 2139887110, 1238988590, 1805829162, 517563348, 3523030613, 2561647659, 2457033094, 110524459, 3060194499, 1371354234, 3106249499, 654135201, 3060697207, 1782090502, 3493197751, 2011962950, 3463067072, 2125293843, 3618129160, 264083333, 1779954467, 2211720346, 4182937327, 2941369992, 3794523672, 1330988599, 234225856, 90287582, 2051877036, 3960155203, 2325302511, 1243082884, 2254641221, 3139095438, 2202182478, 2713924425, 891524757, 4005270835, 387403269, 1030701411, 2326221003, 3972817848, 37068874, 4188732375, 4170743689, 1563571666, 3264605422, 1224007347, 2388878847, 2696076550, 1160443253, 3998214265, 3911940885, 309058713, 1299838128, 301738434, 1868013930, 2026352840, 29203600, 99450731, 2742148479, 1264016868, 2461978269, 3930600891, 158658524, 1095791153, 431156709, 1089146157, 3086708774, 3913479923, 3488886065, 662837957, 512314933, 2687580555, 1640087888, 1842891598, 2484638237, 1503175697, 2919500073, 935426647, 3390674322, 3710660216, 3948785403, 3859267761, 886850881, 3266066614, 2405923502, 1778892505, 1078419801, 1202668153, 394351055, 415838974, 3983768587, 825332883, 3634217853, 1472412051, 1551030949, 931843079, 427180435, 725935900, 4262431060, 939768058, 1301081958, 636087235, 271721944, 2204560285, 2497269100, 2473167459, 21620607, 3335975034, 3517674840, 3222417599, 3447164101, 1339565348, 3349704368, 3857516299, 1095981426, 544959111, 234180808, 2480014075, 3949935942, 1047216236, 589300123, 950190608, 1291006957, 424096100, 1214133370, 2491845264, 1910609750, 515729687, 1468575130, 3508223487, 3358189942, 3760910659, 662492595, 3290816602, 1495146986, 3554891657, 2379549908, 1284425649, 3908438764, 500208693, 370734844, 1862397830, 2496258349, 643941428, 3847013908, 430464089, 757441939, 4234893488, 2402089443, 3885899272, 123955394, 2911486454, 3570245885, 305823305, 3521973682, 1134143933, 1822715901, 3771209687, 3765835594, 503306148, 2350585095, 74213553, 244012694, 802358191, 2625353188, 2628956054, 145736569, 2172920852, 1568086026, 733619507, 145496153, 2787717823, 880654765, 1331585910, 1509465018, 2573573594, 1824150333, 1865181627, 4223844607, 2293788278, 2772801702, 3925583439, 356447406, 2275228672, 1673212648, 2042698565, 551936189, 3909795553, 567834322, 338699308, 2642651442, 3561630650, 3766126637, 274749558, 223928195, 3276818380, 3595671621, 1529598288, 3512135371, 990408170, 2187846354, 952429742, 3852385894, 1322368093, 163246556, 3259930194, 3283300532, 323737423, 1292813868, 3393309894, 3713892438, 1677062690, 2298850951, 1458909664, 1403814726, 2831530730, 4228128557, 3781052071, 925731853, 4201869440, 875580200, 1391612016, 1456821743, 1236774598, 655110906, 2237702866, 2535339850, 3500123217, 1831097575, 2339509975, 3223214024, 3242702888, 3348863740, 4116159753, 2639186856, 1354770100, 117843731, 1020244916, 351111739, 1986396569, 424269361, 2196821979, 2537273993, 1099950039, 2929886044, 2892244184, 1264517853, 203709692, 2382681067, 742099144, 1432956886, 1044385927, 429332988, 3613380401, 49444759, 756116338, 1251280805, 2433090297, 780894170, 323183842, 1323214767, 2433951660, 2719446105, 3017944748, 2520180279, 756337248, 1982568823, 2576088552, 63554701, 1246766315, 308294942, 1783051840, 2559719156, 2508295691, 2220094509, 1885560612, 1389554963, 2409332505, 3551025026, 935038925, 2282550240, 567151253, 1056625473, 1361090054, 1830928174, 1948837568, 604804332, 175213352, 1616532552, 2864856813, 3664285213, 1796704245, 2207154019, 1703148797, 3029510914, 3916216499, 3046424967, 2469057762, 3688516508, 4174594823, 826735065, 3609658778, 2706825366, 1721894425, 4102204064, 2372640683, 873998586, 4645688, 342108091, 1052229759, 2885481328, 3846566736, 2725335273, 3141905149, 1944588128, 3338309352, 1217293365, 758904441, 908714149, 1857017353, 3158344528, 407367111, 1832778363, 2870192017, 195421260, 2082695712, 2299786895, 3924633962, 3816319308, 4174469444, 352017743, 3919653893, 3552084113, 4084281710, 217019257, 2220897032, 2831356070, 517986126, 2126042467, 3500893938, 486038748, 282202472, 62418345, 4243706353, 3034591456, 2928836324, 2433510828, 1171220900, 3151109281, 4133436617, 3496079655, 889039997, 3169404797, 4218370257, 3184524119, 3222673742, 955349275, 2029908831, 410243278, 2276423897, 4200509024, 427092757, 2393598070, 1849682457, 3026238934, 2818453350, 2830402705, 910713912, 1567238953, 2857806016, 4178086031, 3618315352, 2721672244, 1362169819, 2879403111, 944177284, 3409592433, 3148312349, 117073596, 2159545286, 667249336, 442234702, 1437245782, 1195451558, 3555215932, 3898790982, 2775911198, 2796500044, 4192572470, 61910163, 1144565006, 1759081450, 4217561358, 3851781926, 1895855845, 2978681379, 3636215304, 1364798791, 791350095, 1253102225, 2548766165, 4180900150, 1987462070, 1190937574, 312972162, 1033899022, 3652779080, 1460108538, 2200492031, 2596682597, 2194804720, 1702535764, 2371568706, 3426924971, 1084035508, 1270666209, 2966270095, 3594748641, 2314251442, 662353580, 4005784134, 4037513750, 2711695041, 402334646, 906313207, 1781494222]
def stageA1 : List ℕ := [2147483648, 163610392, 3414454684, 213706556, 4107842212, 2345084137, 1370141154, 308032203, 1333762497, 62788148, 3897778028, 747877958, 1467715487, 3456091536, 2761063683, 1618744790, 1478419815, 1764113510, 846282508, 2723886408, 4169581479, 1502702845, 2646586442, 2469253028, 2959591262, 4098450497, 884511481, 335884721, 3599209546, 513139374, 3325056467, 728657986, 4258769976, 1345736399, 2025918085, 3316918730, 2943630414, 2227403036, 2570027851, 3647123330, 1428539568, 3871201705, 1751794003, 270064251, 1795576567, 1369598507, 618682879, 2451807245, 529121120, 3890334672, 1711572734, 3489061444, 651351815, 4134812839, 69921281, 166843555, 3639104358, 1220147039, 1949863666, 1735631448, 1274775129, 2568486724, 1135749407, 4184445328, 1474571425, 2839972547, 1408182003, 244421551, 3350038055, 1060682618, 4280572247, 1303862814, 2374039070, 2105482037, 3963285136, 1813783878, 3843306449, 1550621711, 3201633678, 3993032609, 2696521485, 1737817996, 2171565928, 2455244480, 1159916282, 512285753, 3858590612, 4026374369, 1315072297, 1616330716, 2575452881, 2244992328, 3829642776, 3110057432, 2014659424, 2754832975, 325146004, 2099885769, 2020308731, 1285440480, 3077009376, 2090384422, 1391632928, 3117180829, 446498285, 441350144, 2181843108, 2070907054, 159173329, 2146887474, 2552448310, 2804228090, 1104855231, 3423489232, 571551281, 2985027384, 2539165306, 297570257, 2726511311, 4153586362, 2738372079, 136762299, 632694665, 2321868360, 405387135, 3889854117, 3664524696, 2155352969, 3438225114, 1479423152, 3490667914, 1428754172, 4202177206, 3666900963, 1589695458, 1376009076, 2045844259, 2570438673, 4062196720, 2557681198, 3588069788, 3816335341, 1913661670, 2760431498, 473535928, 886428644, 3042733200, 3514611376, 1727272720, 1352272367, 1182350217, 2770160529, 1408757716, 1236436838, 2638114048, 2288958075, 1907848138, 2513183981, 430007381, 1410996817, 2893861882, 93734637, 889812797, 1746269177, 2955589432, 2154616085, 2341907336, 3667241034, 3612199480, 3276336868, 2147135321, 1218242541, 4191308092, 3390432817, 3936122595, 2082616352, 2829353186, 2952040553, 713551976, 2561783586, 1479607462, 3332321760, 1309567703, 22089850, 2486755466, 381044148, 159099040, 388730878, 609513646, 2552905871, 3544022117, 3805737844, 2227334610, 2494928250, 3378607757, 3524817012, 2139887110, 1238988590, 1805829162, 517563348, 3523030613, 2561647659, 2457033094, 110524459, 3060194499, 1371354234, 3106249499, 654135201, 3060697207, 1782090502, 3493197751, 2011962950, 3463067072, 2125293843, 3618129160, 264083333, 1779954467, 2211720346, 4182937327, 2941369992, 3794523672, 1330988599, 234225856, 90287582, 2051877036, 3960155203, 2325302511, 1243082884, 2254641221, 3139095438, 2202182478, 2713924425, 891524757, 4005270835, 387403269, 1030701411, 2326221003, 3972817848, 37068874, 4188732375, 4170743689, 1563571666, 3264605422, 1224007347, 2388878847, 2696076550, 1160443253, 3998214265, 3911940885, 309058713, 1299838128, 301738434, 1868013930, 2026352840, 29203600, 99450731, 2742148479, 1264016868, 2461978269, 3930600891, 158658524, 1095791153, 431156709, 1089146157, 3086708774, 3913479923, 3488886065, 662837957, 512314933, 2687580555, 1640087888, 1842891598, 2484638237, 1503175697, 2919500073, 935426647, 3390674322, 3710660216, 3948785403, 3859267761, 886850881, 3266066614, 2405923502, 1778892505, 1078419801, 1202668153, 394351055, 415838974, 3983768587, 825332883, 3634217853, 1472412051, 1551030949, 931843079, 427180435, 725935900, 4262431060, 939768058, 1301081958, 636087235, 271721944, 2204560285, 2497269100, 2473167459, 21620607, 3335975034, 3517674840, 3222417599, 3447164101, 1339565348, 3349704368, 3857516299, 1095981426, 544959111, 234180808, 2480014075, 3949935942, 1047216236, 589300123, 950190608, 1291006957, 424096100, 1214133370, 2491845264, 1910609750, 515729687, 1468575130, 3508223487, 3358189942, 3760910659, 662492595, 3290816602, 1495146986, 3554891657, 2379549908, 1284425649, 3908438764, 500208693, 370734844, 1862397830, 2496258349, 643941428, 3847013908, 430464089, 757441939, 4234893488, 2402089443, 3885899272, 123955394, 2911486454, 3570245885, 305823305, 3521973682, 1134143933, 1822715901, 3771209687, 3765835594, 503306148, 2350585095, 74213553, 244012694, 802358191, 2625353188, 2628956054, 145736569, 2172920852, 1568086026, 733619507, 145496153, 2787717823, 880654765, 1331585910, 1509465018, 2573573594, 1824150333, 1865181627, 4223844607, 2293788278, 2772801702, 3925583439, 356447406, 2275228672, 1673212648, 2042698565, 551936189, 3909795553, 567834322, 338699308, 2642651442, 3561630650, 3766126637, 274749558, 223928195, 3276818380, 3595671621, 1529598288, 3512135371, 990408170, 2187846354, 952429742, 3852385894, 1322368093, 163246556, 3259930194, 3283300532, 323737423, 1292813868, 3393309894, 3713892438, 1677062690, 2298850951, 1458909664, 1403814726, 2831530730, 4228128557, 3781052071, 925731853, 4201869440, 875580200, 1391612016, 1456821743, 1236774598, 655110906, 2237702866, 2535339850, 3500123217, 1831097575, 2339509975, 3223214024, 3242702888, 3348863740, 4116159753, 2639186856, 1354770100, 117843731, 1020244916, 351111739, 1986396569, 424269361, 2196821979, 2537273993, 1099950039, 2929886044, 2892244184, 1264517853, 203709692, 2382681067, 742099144, 1432956886, 1044385927, 429332988, 3613380401, 49444759, 756116338, 1251280805, 2433090297, 780894170, 323183842, 1323214767, 2433951660, 2719446105, 3017944748, 2520180279, 756337248, 1982568823, 2576088552, 63554701, 1246766315, 308294942, 1783051840, 2559719156, 2508295691, 2220094509, 1885560612, 1389554963, 2409332505, 3551025026, 935038925, 2282550240, 567151253, 1056625473, 1361090054, 1830928174, 1948837568, 604804332, 175213352, 1616532552, 2864856813, 3664285213, 1796704245, 2207154019, 1703148797, 3029510914, 3916216499, 3046424967, 2469057762, 3688516508, 4174594823, 826735065, 3609658778, 2706825366, 1721894425, 4102204064, 2372640683, 873998586, 4645688, 342108091, 1052229759, 2885481328, 3846566736, 2725335273, 3141905149, 1944588128, 3338309352, 1217293365, 758904441, 908714149, 1857017353, 3158344528, 407367111, 1832778363, 2870192017, 195421260, 2082695712, 2299786895, 3924633962, 3816319308, 4174469444, 352017743, 3919653893, 3552084113, 4084281710, 217019257, 2220897032, 2831356070, 517986126, 2126042467, 3500893938, 486038748, 282202472, 62418345, 4243706353, 3034591456, 2928836324, 2433510828, 1171220900, 3151109281, 4133436617, 3496079655, 889039997, 3169404797, 4218370257, 3184524119, 3222673742, 955349275, 2029908831, 410243278, 2276423897, 4200509024, 427092757, 2393598070, 1849682457, 3026238934, 2818453350, 2830402705, 910713912, 1567238953, 2857806016, 4178086031, 3618315352, 2721672244, 1362169819, 2879403111, 944177284, 3409592433, 3148312349, 117073596, 2159545286, 667249336, 442234702, 1437245782, 1195451558, 3555215932, 3898790982, 2775911198, 2796500044, 4192572470, 61910163, 1144565006, 1759081450, 4217561358, 3851781926, 1895855845, 2978681379, 3636215304, 1364798791, 791350095, 1253102225, 2548766165, 4180900150, 1987462070, 1190937574, 312972162, 1033899022, 3652779080, 1460108538, 2200492031, 2596682597, 2194804720, 1702535764, 2371568706, 3426924971, 1084035508, 1270666209, 2966270095, 3594748641, 2314251442, 662353580, 4005784134, 4037513750, 2711695041, 402334646, 906313207, 1781494222]
def stageT1 : List ℕ := [2145931878, 2812664348, 2124062512, 3757238068, 2453315318, 1634707757, 1382563816, 2097433739, 311746133, 2032626074, 2617776101, 1877538630, 1158287594, 1111761113, 650853131, 3869983018, 2622923993, 3845947563, 4034124803, 3529923841, 263419425, 988778765, 459585442, 250000960, 2862328889, 3831024473, 376081109, 3160276335, 2681558278, 3610562257, 3737464566, 4277502420, 810823568, 1660136801, 3616377324, 3405043087, 312580666, 3533264489, 1350493301, 2122280547, 3694157202, 4101260871, 334760505, 1001399085, 4032193053, 635051900, 1014848001, 77323629, 1070905620, 4245065876, 197191146, 2668164234, 2624765451, 3263880227, 1253021119, 780557860, 3494191106, 1888043228, 2730480597, 2457734185, 533240640, 3054437375, 2913464164, 1357763286, 1045027602, 1724499345, 3008672616, 3438668475, 3323437141, 2773702905, 747342820, 346050065, 2381318917, 2928624060, 3817839784, 802250010, 2271060476, 1303931860, 1637065750, 452736219, 1148317707, 2293975124, 1759645173, 1550558780, 3345762501, 1608452836, 2598279791, 3660910759, 978982086, 4120101375, 3894792265, 2823378193, 934829337, 4286897875, 4002609413, 4246864328, 1324405512, 279562789, 3043357970, 3228171372, 2258574612, 406825161, 1388938891, 1964036799, 1803893273, 4119105266, 4040973308, 2846817613, 1069387937, 410354976, 1831161730, 1377379312, 3275937080, 1785820974, 2746243425, 943998045, 388790751, 3234299277, 1458745124, 4273819277, 3014921995, 932388939, 494247651, 3089207579, 32910364, 1720974976, 2769802043, 4016334306, 2247766834, 3414149001, 2454052410, 700926996, 501327659, 3168332128, 3664981204, 2837401143, 301098975, 3520268638, 1390827609, 341186989, 941589979, 1710246063, 43416237, 1302636405, 3868932099, 2924349096, 3324782012, 3799410212, 4102741388, 31863226, 2111384030, 3113879245, 270856142, 2994106877, 642831667, 3306439346, 1408809959, 3978918894, 3422047912, 239974707, 1550642032, 2043847969, 3027673654, 2529047530, 3070308428, 4054575122, 3400858435, 3272761741, 1475089226, 3147811930, 386952169, 3319901201, 732520351, 1317005210, 790631883, 3220337686, 4139120751, 2658777157, 3086988428, 1793254639, 2750911286, 3653955340, 452165491, 1605816595, 203032188, 3612712556, 3824620473, 3076469577, 867345620, 158571227, 1927009577, 106535911, 579058007, 115010199, 2358886172, 247889382, 2506598836, 3983367197, 1580571821, 2665295034, 2683285595, 3738351894, 594605564, 4098727176, 774035931, 2537418448, 4158003969, 1535576236, 572209529, 842702075, 3778032710, 2783384848, 2200217090, 2794415814, 311739062, 3969800442, 1247200684, 1433159463, 2179685797, 4175775678, 3654853992, 3896011302, 4061611257, 2626140823, 3103130952, 3930139487, 254052748, 3855707803, 4196974555, 1060884119, 370921039, 1369695587, 3476738923, 2162894901, 4206583013, 2395981551, 255940678, 3708995520, 3392486002, 2689507313, 752695856, 125947260, 467246764, 40871673, 3043356200, 200152678, 2085165538, 3794697076, 3939684254, 1037585914, 102277793, 2637200524, 3627750205, 380912797, 665055749, 392498022, 2996789283, 1318254951, 316222422, 1961777278, 3679659174, 1113345985, 1938416582, 157033001, 1060150735, 2928427570, 3031880670, 1249659479, 2103732829, 1662315153, 224134794, 1666358220, 3491691947, 2994204234, 3329478809, 450393053, 2475722664, 3882254920, 1963172877, 1595157620, 3822895224, 219949288, 3264033175, 1768824945, 3394654527, 813157357, 2652542294, 2960758170, 2006940009, 417447429, 2718236352, 2306344607, 3825472333, 652682110, 3646396725, 4178601215, 4182934660, 172883031, 2673609519, 2246646249, 909411501, 2850241054, 4285343988, 1592910492, 1859326953, 155590330, 3825048667, 3150087862, 4015479494, 1261845165, 3080033638, 2814764156, 3605663608, 2619617803, 1255448837, 1340967525, 2863030729, 1623023707, 3021485081, 2294903856, 4079437409, 3401442104, 4150346880, 905975971, 2264911473, 2661393375, 1911345740, 3800820143, 4045562039, 2558483597, 1459757714, 118106860, 1165858281, 3057048982, 1457598026, 197563863, 3482681317, 1713976572, 1704580147, 1345230193, 960599348, 2434153067, 3986217646, 2562071497, 4277326293, 2288804618, 2373075337, 4026907498, 559399088, 3994811970, 1748246240, 687909573, 2656541313, 172839962, 1174986454, 4123080855, 2239769691, 222356582, 4076456083, 446958688, 842651752, 3561944614, 3880131068, 3433903804, 3507559252, 1012782172, 2558770155, 2772515112, 4025245999, 3248494244, 1779144398, 3395778014, 2734475333, 695844093, 1290330662, 1348668716, 1169819265, 796648845, 1416586549, 1522242969, 2981687293, 1468877895, 1627160527, 3666017126, 1084527681, 2601809345, 72723237, 1387085801, 334999804, 1564694271, 3733856209, 681963346, 3489909748, 949258174, 2928118053, 3863991536, 3860593327, 371432064, 2575555142, 426115244, 2954856811, 738028837, 2664775487, 2540462133, 1322574653, 2440615834, 1338114700, 3445183261, 2821723677, 2272860399, 885803491, 634144735, 3275178777, 83733744, 1593352389, 4046246413, 877273755, 683929789, 790672351, 2430706559, 570506740, 2669651553, 209071247, 3739791889, 472530666, 2981037569, 40670990, 4292910015, 3195102466, 1086142594, 401531731, 1619377167, 4284349834, 1834858583, 1172361590, 2976206011, 2415996136, 1956409217, 1033358882, 1370606489, 1598039538, 96830232, 3131853462, 3069309981, 1400793433, 534873231, 2935522266, 4083954307, 1846596282, 4275881991, 773909968, 1619496540, 4241071846, 3009854081, 1952112440, 2909601846, 916094182, 2826710343, 1495955125, 121231768, 3642376035, 682139425, 3628442591, 2908496930, 3520543028, 316238059, 476986715, 636297407, 849499740, 395347414, 3517436195, 1849992417, 1944041972, 3425230772, 2095805479, 2198266975, 4279057091, 35576657, 1423952153, 1582221890, 1042550686, 288566674, 762411014, 2694392405, 1269447923, 586416626, 4169660375, 795857783, 2933865700, 3947261096, 3801443464, 628738126, 1127394996, 2004091842, 65609766, 277434259, 2255879117, 3438791353, 1220614401, 2159381984, 1479433625, 4231169481, 3311733975, 3382481877, 3880121300, 3862497039, 3645340820, 4129470912, 2143211840, 180169020, 2915321296, 3013760655, 319458457, 1666519955, 1072488057, 4119017956, 3065963998, 3156524904, 1548959907, 1267883695, 2858827881, 2625989395, 3338785263, 1691602716, 2126211298, 4007673737, 4186027339, 3846281941, 70982851, 263837795, 659126827, 2980846218, 192284478, 3080459272, 4105006353, 1224966312, 1667467732, 4192844552, 2947345608, 1312721267, 995387948, 279230837, 413447447, 3793770271, 39507081, 821660310, 1794005643, 35589677, 164333017, 1880971233, 3535746068, 1091601157, 4272598904, 3030179358, 1207804127, 4246440144, 44060734, 707622306, 3535335353, 1109926354, 1478596677, 1288794273, 1480163940, 46632306, 1024263904, 3525603704, 1158005009, 3704447404, 4207129671, 3162795188, 1764109563, 1915386681, 3562005320, 837276014, 887012411, 1646982126, 3997694881, 1003924412, 606949730, 3028470314, 703448649, 1878850504, 2180010676, 3610946004, 1578597952, 2383086216, 3262442230, 270896879, 3760345043, 3673647483, 3194484015, 815370489, 3180391826, 4108166383, 1424301908, 1634817111, 2112933683, 4176915707, 3070150981, 3653757342, 168271118, 1169894375, 1320356651, 1768323237, 1157127152, 3438525973, 2396010740, 4040288261, 623910253, 1716641262, 631969644, 552213659, 667069678, 2235286461, 2693025350, 1460659877, 251530665, 3924798194, 1358308953, 433843275, 1936266853, 747480833, 3545787415, 3656373148]
def chunk1a : List ℕ := [229, 1, 214, 3, 4, 193, 217, 208, 8, 9, 10, 11, 12, 13, 14, 15, 250, 17, 18, 19, 20, 21, 22, 23, 239, 189, 221, 27, 28, 29, 225, 31, 32, 33, 34, 35, 36, 37, 38, 39, 40, 41, 42, 43, 44, 45, 46, 188, 177, 49, 50, 51, 52, 240, 54, 211, 197, 57, 223, 199, 60, 61, 62, 63, 64, 249, 66, 67, 226, 69, 70, 71, 212, 73, 230, 186, 76, 176, 78, 79, 80, 220, 82, 83, 84, 183, 86, 87, 200, 89, 90, 91, 92, 93, 94, 95, 96, 235, 98, 234, 236, 101, 102, 103, 104, 105, 192, 107, 180, 109, 233, 111, 204, 113, 227, 245, 116, 224, 118, 119, 244, 121, 122, 123, 238, 125, 203, 198, 181, 172, 130, 131, 132, 133, 134, 207, 136, 137, 215, 139, 140, 202, 191, 143, 144, 254, 146, 147, 148, 149, 174, 222, 152, 153, 154, 232, 156, 157, 158, 159, 160, 187, 162, 163, 190, 165, 253, 167, 168, 169, 170, 100, 179, 127, 150, 72, 77, 48, 171, 129, 210, 128, 182, 85, 248, 75, 209, 161, 47, 25, 164, 142, 106, 218, 74, 117, 246, 206, 173, 241, 88, 59, 141, 247, 112, 231, 56, 135, 219, 185, 108, 55, 175, 242, 2, 138, 243, 6, 5, 237, 81, 26, 151, 58, 252, 184, 255, 114, 178, 0, 196, 251, 155, 110, 99, 213, 228, 7, 124, 24, 53, 201, 97, 166, 120, 115, 194, 126, 30, 65, 16, 195, 205, 216, 145, 68]
def chunk1b : List ℕ := [159, 91, 136, 162, 92, 193, 217, 222, 169, 207, 89, 187, 12, 13, 198, 15, 250, 17, 18, 19, 20, 21, 234, 96, 239, 121, 221, 157, 28, 101, 225, 31, 163, 158, 34, 35, 36, 37, 38, 39, 40, 156, 165, 254, 113, 245, 238, 188, 177, 49, 50, 202, 118, 227, 54, 211, 197, 87, 105, 139, 60, 203, 134, 63, 119, 249, 66, 67, 152, 233, 153, 71, 123, 73, 235, 186, 116, 176, 107, 144, 80, 180, 82, 83, 84, 183, 132, 57, 214, 10, 9, 86, 4, 32, 137, 149, 23, 230, 168, 160, 220, 29, 102, 191, 76, 143, 42, 148, 147, 79, 69, 232, 229, 190, 240, 45, 104, 167, 172, 64, 170, 189, 70, 212, 46, 111, 61, 14, 109, 52, 33, 98, 1, 226, 224, 90, 200, 131, 253, 199, 215, 51, 3, 223, 181, 146, 43, 154, 78, 11, 244, 208, 125, 94, 236, 133, 41, 27, 130, 204, 22, 95, 140, 93, 44, 192, 103, 62, 122, 8, 174, 100, 179, 127, 150, 72, 77, 48, 171, 129, 210, 128, 182, 85, 248, 75, 209, 161, 47, 25, 164, 142, 106, 218, 74, 117, 246, 206, 173, 241, 88, 59, 141, 247, 112, 231, 56, 135, 219, 185, 108, 55, 175, 242, 2, 138, 243, 6, 5, 237, 81, 26, 151, 58, 252, 184, 255, 114, 178, 0, 196, 251, 155, 110, 99, 213, 228, 7, 124, 24, 53, 201, 97, 166, 120, 115, 194, 126, 30, 65, 16, 195, 205, 216, 145, 68]
def mtPermList1 : List ℕ := [233, 254, 66, 183, 15, 211, 234, 222, 119, 187, 176, 159, 19, 134, 17, 36, 193, 18, 225, 101, 180, 152, 40, 197, 92, 245, 80, 73, 118, 84, 203, 186, 54, 188, 153, 202, 165, 158, 177, 71, 139, 227, 28, 89, 136, 207, 121, 49, 249, 91, 157, 38, 13, 235, 238, 87, 217, 250, 12, 50, 221, 123, 239, 39, 162, 82, 60, 63, 156, 105, 107, 83, 116, 67, 163, 20, 21, 169, 37, 113, 96, 144, 198, 34, 31, 35, 132, 57, 214, 10, 9, 86, 4, 32, 137, 149, 23, 230, 168, 160, 220, 29, 102, 191, 76, 143, 42, 148, 147, 79, 69, 232, 229, 190, 240, 45, 104, 167, 172, 64, 170, 189, 70, 212, 46, 111, 61, 14, 109, 52, 33, 98, 1, 226, 224, 90, 200, 131, 253, 199, 215, 51, 3, 223, 181, 146, 43, 154, 78, 11, 244, 208, 125, 94, 236, 133, 41, 27, 130, 204, 22, 95, 140, 93, 44, 192, 103, 62, 122, 8, 174, 100, 179, 127, 150, 72, 77, 48, 171, 129, 210, 128, 182, 85, 248, 75, 209, 161, 47, 25, 164, 142, 106, 218, 74, 117, 246, 206, 173, 241, 88, 59, 141, 247, 112, 231, 56, 135, 219, 185, 108, 55, 175, 242, 2, 138, 243, 6, 5, 237, 81, 26, 151, 58, 252, 184, 255, 114, 178, 0, 196, 251, 155, 110, 99, 213, 228, 7, 124, 24, 53, 201, 97, 166, 120, 115, 194, 126, 30, 65, 16, 195, 205, 216, 145, 68]
def passB2 : List ℕ := [4287170995, 2988510025, 67375611, 3188110858, 2613675602, 2039225082, 3444419378, 3188882037, 512586704, 57768122, 1649822115, 1022308830, 2336705097, 1581336345, 2040579408, 3564892966, 1909567690, 1010454088, 1254303940, 1940399647, 414487256, 21697418, 2037987349, 412577173, 13858030, 10980114, 2457824071, 2385194875, 1098222546, 2702111703, 543974913, 2979806446, 2213388159, 3501730186, 1684324463, 1081223961, 3736743071, 3613114837, 3289577950, 932877331, 2747904217, 561580338, 3502785039, 2093243381, 1907220044, 2456928264, 4027372441, 1334943176, 3685419244, 676986690, 3966194970, 3487315837, 2606254985, 1569308662, 3116814519, 2908179834, 3234291146, 510570830, 1298889575, 208762209, 4019370972, 1849914998, 3163724757, 1268857515, 972035092, 1576470247, 73183173, 3224438957, 3067870557, 497191780, 4232204788, 2979303823, 2538307062, 119532934, 2406423399, 1528664247, 2066247466, 3771709626, 3496976088, 2184499681, 2383891608, 1124474629, 1744172456, 1457197235, 1383762053, 741633753, 751449606, 4111546990, 1992707033, 2316290863, 181697410, 2068948277, 87008176, 3170894621, 3931384801, 1299263784, 462699211, 3147375636, 104728514, 3936078626, 2322776748, 3618900500, 4037243026, 1801615769, 1754415781, 2009181624, 285175713, 4214260005, 1940271032, 3996576306, 2223806448, 4062907970, 3073783687, 3704219520, 3675835301, 2259430334, 1737682490, 2015356760, 3442626108, 3260867644, 2233360474, 36846497, 2451124502, 3869994130, 739181647, 152746141, 3219354810, 708931513, 1176461818, 3777958579, 2194860192, 4056335644, 704299134, 550061411, 772962590, 3164228325, 1249252059, 1745126184, 2704678957, 2483656454, 3500119809, 1128535918, 430786802, 872053356, 4004775916, 3546294231, 1391465156, 4012671787, 4153249740, 2967638280, 2522037082, 2212311631, 3399240813, 1781397473, 750680421, 1970103231, 1898012202, 2596606605, 377822048, 1206641395, 1816013420, 1569713543, 1728101011, 360050551, 221270047, 3092851756, 4187807732, 926927618, 360284060, 274236872, 1385308146, 2832046624, 2106440386, 1448830862, 2107386564, 730224480, 908041759, 1904931983, 1087254411, 37187498, 3247549799, 835994144, 2987971302, 1863663898, 33696893, 2539100172, 3384988927, 1714626119, 2527421091, 901582182, 1804178852, 3507417503, 1895289539, 3224202182, 2113012279, 2992845560, 2036360007, 2713584774, 3183408610, 2073012605, 2813798415, 2420366226, 3586532607, 2184744131, 3337081760, 2800973260, 2575047502, 1158817229, 2161345096, 2782812527, 1489753177, 4253622655, 1471866070, 2682129013, 2664483063, 1522788225, 2635897623, 3105634843, 2310080840, 4124480544, 99447222, 2608449512, 2586428165, 2967408413, 4159524532, 4185633020, 1286441549, 4093647679, 1176071499, 1921313402, 2986808440, 1244578441, 3613703414, 1218691251, 55444434, 4265187365, 1427958397, 1084319058, 3268917791, 230064854, 2823911001, 806073432, 23764084, 3314690554, 784818086, 1280432026, 1181740471, 816311901, 889203926, 4260801821, 3197048481, 2257510118, 1648310645, 3673000984, 2947831592, 2954299906, 3509847048, 2531007350, 2466956528, 2857920616, 3537842854, 1349505760, 3243600480, 3398943233, 3440871692, 3148432510, 2183792082, 2091382282, 4214896706, 4015652772, 2040212717, 3391964760, 181103816, 2734648073, 2883717469, 4068331318, 3915472484, 1496339405, 159926735, 1197745459, 1917406469, 3951741432, 1778995895, 594523772, 3198699711, 2557845606, 4291380897, 642346265, 4149531305, 4156868848, 2729070410, 3937650681, 1557942548, 1770422204, 82525193, 3486566040, 2199821929, 3447196901, 3364616097, 89452328, 3063917875, 1459678063, 646890721, 1322373393, 2872122002, 3758500206, 2899348568, 1935689306, 1607767839, 1375542885, 1449835910, 1704958731, 3308252051, 3970004459, 933023575, 3506253307, 734123942, 992959609, 1795554757, 1405702850, 2124490773, 1389130675, 2927715613, 289290249, 1196401533, 735730303, 2784181574, 869296711, 299070884, 1396231061, 1544600093, 103179702, 323000691, 2386729850, 2396456260, 3811860667, 441770596, 2611718365, 4047402398, 1718294280, 3405100214, 1467941843, 897149229, 1442443923, 3892337917, 3616515022, 3535327971, 2859641173, 2567463038, 2885865794, 2236353885, 2096374797, 1852350727, 958019350, 4241251581, 2173450176, 1226973080, 2360224235, 3328622889, 304452711, 2579245064, 4271376996, 721147917, 43877009, 2638176510, 2001500225, 1077524321, 85954381, 1117401859, 1823177184, 109007358, 354579607, 1171190657, 4274015745, 115128458, 1426203666, 2254611302, 1685240687, 3276241735, 153233658, 1642862766, 2335512156, 1025992233, 318337015, 835836573, 2689382352, 2141207471, 3251655376, 915884701, 3688145130, 1448847061, 2500354887, 1133561787, 1537054373, 2274089523, 2188830548, 3300458991, 584872758, 2637032986, 41739853, 1943737297, 3320349442, 453156257, 79532480, 2361261735, 1387031898, 2073594088, 743749489, 4071899871, 3228264024, 595019967, 2627539345, 1482925329, 41379368, 3999683868, 3677352334, 2181745542, 959751116, 371147946, 1924791223, 2847671432, 4165999934, 1316622342, 4044099140, 4272314994, 2514925100, 1089168420, 1924079763, 4074691791, 2937844687, 2233891727, 2093668642, 1856599328, 2698314212, 1473837170, 253946746, 2209911028, 909447690, 4145168170, 466939452, 2909042971, 2025489224, 2332195856, 2264110784, 3142581363, 2224448650, 403599260, 3521020405, 173080196, 3923170460, 3784043871, 2612713867, 1058972472, 925628725, 3350314410, 4261334231, 2300144153, 1558413959, 3413893125, 203833694, 4282701021, 2073727972, 335765323, 3198644596, 3252582558, 2324353101, 673603501, 3794139697, 169130612, 3436442188, 1550114176, 1455836933, 4117338960, 3286042530, 2943513638, 3046187986, 996489032, 3882146092, 1398076143, 1648347743, 76559722, 10370540, 3888343624, 3025448496, 2450130944, 3376449559, 3341516713, 1664221356, 2553865236, 2718550939, 2792053997, 3439598957, 4174468747, 3717770691, 3663314984, 2417059688, 3868435166, 1640312105, 1316743875, 4185480659, 1834486548, 3214964406, 1335834422, 1447884677, 267767969, 3647597790, 3815057486, 3639232776, 2117132489, 15532880, 3392215242, 36648463, 2732183260, 3562207473, 1887500594, 4066970398, 2652511597, 1874493431, 3826331533, 476287055, 325100949, 917522253, 718051500, 1064220658, 611498651, 269240377, 1209589797, 1205275314, 3022295444, 3286220912, 866504470, 1096125900, 91256044, 1206937502, 2802870583, 246865577, 2547742139, 2366767298, 3150612982, 492748717, 2234928185, 1139168840, 1366481749, 3871825471, 4132900774, 2177809495, 2889727480, 2130117740, 2452855984, 3306584658, 3863814084, 3854837562, 1225634424, 2764564961, 1367501644, 1011529536, 844376184, 2791798444, 3472024907, 1459352715, 2767849115, 3542170782, 694521364, 1282162618, 2112194080, 2223068605, 2550009595, 471671761, 904380911, 656051225, 1291368188, 1319439597, 544474835, 2921250634, 3207692404, 3611738203, 404530270, 1536683109, 4129120471, 2247935481, 2285390813, 1417330510, 411621565, 3900769176, 1348140013, 3216248579, 2428853180, 3296392894, 267050264, 341058435, 2358787352, 3616861119, 2130827282, 3796392235, 3923256089, 3639740724, 643185206, 2572698420, 1289230408, 2796957932, 1168439221, 2198784539, 4054917014, 3017393676, 442154411, 2695373624, 1661761398, 3673130708, 3538895476, 535206995, 2418485550, 1935176348, 3069433826, 478324938, 2781715261, 778227445, 2109536900, 1679420096, 4202840046, 1216945204, 2821448285, 1086829351, 4145181966]
def stageB2 : List ℕ := [4145181966, 2874218012, 2988510025, 67375611, 3188110858, 2613675602, 2039225082, 3444419378, 3188882037, 512586704, 57768122, 1649822115, 1022308830, 2336705097, 1581336345, 2040579408, 3564892966, 1909567690, 1010454088, 1254303940, 1940399647, 414487256, 21697418, 2037987349, 412577173, 13858030, 10980114, 2457824071, 2385194875, 1098222546, 2702111703, 543974913, 2979806446, 2213388159, 3501730186, 1684324463, 1081223961, 3736743071, 3613114837, 3289577950, 932877331, 2747904217, 561580338, 3502785039, 2093243381, 1907220044, 2456928264, 4027372441, 1334943176, 3685419244, 676986690, 3966194970, 3487315837, 2606254985, 1569308662, 3116814519, 2908179834, 3234291146, 510570830, 1298889575, 208762209, 4019370972, 1849914998, 3163724757, 1268857515, 972035092, 1576470247, 73183173, 3224438957, 3067870557, 497191780, 4232204788, 2979303823, 2538307062, 119532934, 2406423399, 1528664247, 2066247466, 3771709626, 3496976088, 2184499681, 2383891608, 1124474629, 1744172456, 1457197235, 1383762053, 741633753, 751449606, 4111546990, 1992707033, 2316290863, 181697410, 2068948277, 87008176, 3170894621, 3931384801, 1299263784, 462699211, 3147375636, 104728514, 3936078626, 2322776748, 3618900500, 4037243026, 1801615769, 1754415781, 2009181624, 285175713, 4214260005, 1940271032, 3996576306, 2223806448, 4062907970, 3073783687, 3704219520, 3675835301, 2259430334, 1737682490, 2015356760, 3442626108, 3260867644, 2233360474, 36846497, 2451124502, 3869994130, 739181647, 152746141, 3219354810, 708931513, 1176461818, 3777958579, 2194860192, 4056335644, 704299134, 550061411, 772962590, 3164228325, 1249252059, 1745126184, 2704678957, 2483656454, 3500119809, 1128535918, 430786802, 872053356, 4004775916, 3546294231, 1391465156, 4012671787, 4153249740, 2967638280, 2522037082, 2212311631, 3399240813, 1781397473, 750680421, 1970103231, 1898012202, 2596606605, 377822048, 1206641395, 1816013420, 1569713543, 1728101011, 360050551, 221270047, 3092851756, 4187807732, 926927618, 360284060, 274236872, 1385308146, 2832046624, 2106440386, 1448830862, 2107386564, 730224480, 908041759, 1904931983, 1087254411, 37187498, 3247549799, 835994144, 2987971302, 1863663898, 33696893, 2539100172, 3384988927, 1714626119, 2527421091, 901582182, 1804178852, 3507417503, 1895289539, 3224202182, 2113012279, 2992845560, 2036360007, 2713584774, 3183408610, 2073012605, 2813798415, 2420366226, 3586532607, 2184744131, 3337081760, 2800973260, 2575047502, 1158817229, 2161345096, 2782812527, 1489753177, 4253622655, 1471866070, 2682129013, 2664483063, 1522788225, 2635897623, 3105634843, 2310080840, 4124480544, 99447222, 2608449512, 2586428165, 2967408413, 4159524532, 4185633020, 1286441549, 4093647679, 1176071499, 1921313402, 2986808440, 1244578441, 3613703414, 1218691251, 55444434, 4265187365, 1427958397, 1084319058, 3268917791, 230064854, 2823911001, 806073432, 23764084, 3314690554, 784818086, 1280432026, 1181740471, 816311901, 889203926, 4260801821, 3197048481, 2257510118, 1648310645, 3673000984, 2947831592, 2954299906, 3509847048, 2531007350, 2466956528, 2857920616, 3537842854, 1349505760, 3243600480, 3398943233, 3440871692, 3148432510, 2183792082, 2091382282, 4214896706, 4015652772, 2040212717, 3391964760, 181103816, 2734648073, 2883717469, 4068331318, 3915472484, 1496339405, 159926735, 1197745459, 1917406469, 3951741432, 1778995895, 594523772, 3198699711, 2557845606, 4291380897, 642346265, 4149531305, 4156868848, 2729070410, 3937650681, 1557942548, 1770422204, 82525193, 3486566040, 2199821929, 3447196901, 3364616097, 89452328, 3063917875, 1459678063, 646890721, 1322373393, 2872122002, 3758500206, 2899348568, 1935689306, 1607767839, 1375542885, 1449835910, 1704958731, 3308252051, 3970004459, 933023575, 3506253307, 734123942, 992959609, 1795554757, 1405702850, 2124490773, 1389130675, 2927715613, 289290249, 1196401533, 735730303, 2784181574, 869296711, 299070884, 1396231061, 1544600093, 103179702, 323000691, 2386729850, 2396456260, 3811860667, 441770596, 2611718365, 4047402398, 1718294280, 3405100214, 1467941843, 897149229, 1442443923, 3892337917, 3616515022, 3535327971, 2859641173, 2567463038, 2885865794, 2236353885, 2096374797, 1852350727, 958019350, 4241251581, 2173450176, 1226973080, 2360224235, 3328622889, 304452711, 2579245064, 4271376996, 721147917, 43877009, 2638176510, 2001500225, 1077524321, 85954381, 1117401859, 1823177184, 109007358, 354579607, 1171190657, 4274015745, 115128458, 1426203666, 2254611302, 1685240687, 3276241735, 153233658, 1642862766, 2335512156, 1025992233, 318337015, 835836573, 2689382352, 2141207471, 3251655376, 915884701, 3688145130, 1448847061, 2500354887, 1133561787, 1537054373, 2274089523, 2188830548, 3300458991, 584872758, 2637032986, 41739853, 1943737297, 3320349442, 453156257, 79532480, 2361261735, 1387031898, 2073594088, 743749489, 4071899871, 3228264024, 595019967, 2627539345, 1482925329, 41379368, 3999683868, 3677352334, 2181745542, 959751116, 371147946, 1924791223, 2847671432, 4165999934, 1316622342, 4044099140, 4272314994, 2514925100, 1089168420, 1924079763, 4074691791, 2937844687, 2233891727, 2093668642, 1856599328, 2698314212, 1473837170, 253946746, 2209911028, 909447690, 4145168170, 466939452, 2909042971, 2025489224, 2332195856, 2264110784, 3142581363, 2224448650, 403599260, 3521020405, 173080196, 3923170460, 3784043871, 2612713867, 1058972472, 925628725, 3350314410, 4261334231, 2300144153, 1558413959, 3413893125, 203833694, 4282701021, 2073727972, 335765323, 3198644596, 3252582558, 2324353101, 673603501, 3794139697, 169130612, 3436442188, 1550114176, 1455836933, 4117338960, 3286042530, 2943513638, 3046187986, 996489032, 3882146092, 1398076143, 1648347743, 76559722, 10370540, 3888343624, 3025448496, 2450130944, 3376449559, 3341516713, 1664221356, 2553865236, 2718550939, 2792053997, 3439598957, 4174468747, 3717770691, 3663314984, 2417059688, 3868435166, 1640312105, 1316743875, 4185480659, 1834486548, 3214964406, 1335834422, 1447884677, 267767969, 3647597790, 3815057486, 3639232776, 2117132489, 15532880, 3392215242, 36648463, 2732183260, 3562207473, 1887500594, 4066970398, 2652511597, 1874493431, 3826331533, 476287055, 325100949, 917522253, 718051500, 1064220658, 611498651, 269240377, 1209589797, 1205275314, 3022295444, 3286220912, 866504470, 1096125900, 91256044, 1206937502, 2802870583, 246865577, 2547742139, 2366767298, 3150612982, 492748717, 2234928185, 1139168840, 1366481749, 3871825471, 4132900774, 2177809495, 2889727480, 2130117740, 2452855984, 3306584658, 3863814084, 3854837562, 1225634424, 2764564961, 1367501644, 1011529536, 844376184, 2791798444, 3472024907, 1459352715, 2767849115, 3542170782, 694521364, 1282162618, 2112194080, 2223068605, 2550009595, 471671761, 904380911, 656051225, 1291368188, 1319439597, 544474835, 2921250634, 3207692404, 3611738203, 404530270, 1536683109, 4129120471, 2247935481, 2285390813, 1417330510, 411621565, 3900769176, 1348140013, 3216248579, 2428853180, 3296392894, 267050264, 341058435, 2358787352, 3616861119, 2130827282, 3796392235, 3923256089, 3639740724, 643185206, 2572698420, 1289230408, 2796957932, 1168439221, 2198784539, 4054917014, 3017393676, 442154411, 2695373624, 1661761398, 3673130708, 3538895476, 535206995, 2418485550, 1935176348, 3069433826, 478324938, 2781715261, 778227445, 2109536900, 1679420096, 4202840046, 1216945204, 2821448285, 1086829351, 4145181966]
def passC2 : List ℕ := [2893088925, 636135997, 3019570967, 24546326, 1860774990, 2256063250, 4286297885, 3456236285, 3828254850, 1904716859, 2249539888, 2294256870, 2777468639, 1349998930, 3160784265, 1225256972, 1623886423, 3193335063, 1445156418, 830208930, 812658506, 1344728592, 3722463752, 3299498912, 3445105475, 2929115884, 3137932929, 135156064, 1843120409, 2789881946, 2411478582, 3003603418, 693539728, 1050912668, 2621505393, 1482298779, 4084130289, 277836669, 3219127066, 4215122040, 309282955, 4057683373, 1343888423, 856187525, 1291113795, 1696475748, 3325168865, 1036436373, 2408378201, 2462024394, 2978809697, 3153518673, 707931667, 463384209, 275568407, 509936800, 2419262004, 3146271214, 779696961, 3419017276, 4168215407, 3027705354, 1353452355, 794645213, 2100344468, 3217965001, 2516282486, 2905552980, 2405785668, 3625364515, 3941849319, 3960676281, 4171919258, 402718959, 1913828272, 1105301682, 3705208535, 1085684525, 1326640493, 3700818611, 337805347, 398621460, 3719657987, 2746067504, 2787714317, 961082774, 3584060392, 2892850965, 3003441634, 1178977927, 4080251279, 3989025583, 513709795, 1876091663, 2403147598, 179283414, 4001282840, 31554818, 891137156, 3635576403, 859131678, 3471765469, 296768679, 341987293, 1591684127, 3148865036, 267695159, 1693112478, 1675305243, 3083975235, 4212967543, 136586706, 4231140840, 1114240159, 2973984628, 2428898623, 626310867, 815895436, 3164659080, 2284795055, 1384352870, 999514170, 1258231796, 2043772521, 34860823, 2423629098, 110595825, 3529449838, 1544113456, 817882994, 2522345570, 3100587289, 1528092990, 4291072830, 3605167212, 2422558087, 2277658311, 336603657, 4249022207, 626297312, 628298112, 3712691939, 2917622652, 3593186505, 773651923, 2218370920, 1748572517, 3661487907, 3043882514, 942669427, 4215465336, 3487178321, 3482946337, 1601249908, 469597178, 1818491115, 80564289, 2221862694, 2216101671, 4019241556, 3674604594, 2357131299, 2992389838, 732813758, 947404084, 2266480073, 437047405, 1875383540, 3805400503, 3552901963, 2703925404, 718967271, 4051737087, 3898916345, 2840847890, 2006706590, 2609804162, 2871278936, 4189813876, 2531596767, 733114459, 2092395850, 4066940373, 2922144346, 8326138, 3562185378, 1628211718, 2162762403, 3818723621, 3879409563, 1968252583, 2162668284, 3066356526, 1809089960, 4108340113, 282490136, 2949529144, 1940323897, 1940200605, 1878774970, 1785179275, 1656759234, 3916984160, 81879010, 4250533656, 3409007898, 206634816, 1415574839, 3914221647, 1535646930, 1852362860, 3779563010, 2004064826, 3329305049, 193791403, 2942537095, 2412393864, 2264400735, 796018101, 2127279618, 3510875881, 2891053688, 1536630367, 830556865, 1938487543, 2973515872, 2875885233, 2326476783, 2380682517, 352066180, 1897062325, 4071375369, 3554851415, 1194400779, 4163953899, 977841416, 2550069388, 2911538986, 2090053422, 165401569, 3793122731, 3742645833, 2309810132, 2356147667, 3542982905, 2033691678, 1270108782, 1158604068, 1995821706, 4187659899, 4190466754, 766650195, 3032881065, 2373810016, 638928040, 3848227135, 2770821848, 724343279, 1460528927, 4019603819, 1938406370, 2855668456, 2335743307, 2378381496, 1147869714, 2161876642, 3227615774, 3760991014, 1573642799, 1385437628, 1249017785, 1125000767, 1817684589, 2195515566, 4175486934, 1964615512, 2778991034, 2478240576, 1922492705, 2606175116, 876746724, 3781519656, 3784007535, 256114694, 3113411354, 1061742010, 807914587, 514185517, 3541488655, 1341022931, 3495347199, 1704556115, 3078376128, 163309404, 514981036, 2492763276, 3770974649, 1097652888, 2708454729, 456837495, 1920856686, 301214971, 31184870, 1949766651, 2441459098, 189439853, 739856935, 3520331847, 3788773243, 3166820007, 337828826, 1631579992, 1550300092, 48580235, 2960613104, 3608415135, 1576604599, 1586324428, 2310666979, 894504079, 473950614, 203095536, 4164503157, 1495628974, 3732892462, 2182973760, 3020789253, 2531952414, 750471247, 3093222635, 372958735, 1527672907, 2975391482, 2025298253, 2113920247, 4012858393, 3020610381, 4072283490, 1104303097, 3928455961, 3274025787, 2422905566, 1446870279, 2033502282, 1154751487, 3934856826, 2229618828, 3936540955, 4200431068, 1420734279, 2362575667, 782410481, 2103513505, 2786166650, 3006573620, 1425759089, 2902378869, 3585595507, 682139375, 2487635930, 1775223026, 230213479, 3054377158, 2942128189, 608609324, 1444617422, 3462483062, 1216643257, 3384920070, 1706684308, 2257262314, 2279534740, 669389241, 4079011584, 1829175237, 1986065849, 3432604029, 2324011638, 1683014082, 3203745988, 4234947780, 1061343275, 2027033728, 2492332535, 1069486583, 2997552985, 823139251, 2423935613, 845226091, 4142416987, 1777785975, 1027197356, 217145583, 3616462829, 3357510694, 2012962537, 2561153328, 3458070289, 223716551, 3245415105, 2721998326, 2296063826, 2498978236, 98190780, 1161230560, 162714006, 1488819143, 1587776552, 4141082587, 3117123308, 1002595035, 4056304345, 4172840588, 802145496, 339083030, 2052349063, 3030507376, 2004830125, 318263239, 2936832102, 2824137892, 1668640209, 3195554732, 1325076011, 265015572, 1210333973, 3348105419, 1871106170, 598800538, 396085150, 2531414212, 1973162893, 428194342, 792586457, 793795123, 1468913206, 437809411, 1981482574, 954894943, 1278628775, 3880820604, 2333252688, 4187726558, 4219648645, 2239511190, 482285113, 2698130632, 391675253, 177656051, 3405220797, 274763961, 3864733440, 3607558740, 2401745714, 674308959, 3156664729, 1761454038, 946279179, 3471784765, 2476334046, 1043243098, 3194322170, 4169368284, 2991049876, 2842949521, 2073239679, 1998962611, 440335225, 1059592731, 622995024, 973127869, 3246600424, 130342971, 3603362438, 3312633039, 3257359703, 1970320682, 1053367865, 1936069442, 3981626660, 1206460077, 503518641, 4051830273, 1043692261, 3452655976, 4054064567, 1760719552, 58127176, 516937481, 2545083253, 2885240242, 4001257230, 2332870900, 3856734519, 3897510140, 2281824596, 6468565, 3199626967, 1059470054, 343413685, 1928034793, 776414663, 2091909390, 2648595793, 2575764583, 987730076, 666011272, 1091176804, 120227467, 1672319774, 1781257268, 1080209204, 2736397334, 32183507, 3355230493, 4126762422, 1131157144, 1200672969, 1448961183, 3618297786, 9488294, 3998842055, 2281836698, 2422318934, 357426703, 1943340735, 4073969204, 3304058646, 175011879, 2728352098, 103869720, 1060758655, 1214282351, 1531604026, 517890262, 1681592764, 3539311673, 3881871097, 3873775347, 3615999596, 160552549, 148419949, 4173241118, 2318728374, 204722481, 81960074, 2535567866, 2736734275, 3281640657, 243742967, 2464919329, 2467408270, 1709244339, 3125340747, 408462433, 1220913936, 2731658219, 761663095, 3523060552, 1434001627, 699491946, 1433237907, 3037659372, 567873425, 3094317138, 2843359028, 3453957991, 4284736866, 827827234, 2677702491, 3088358324, 1430864864, 772033361, 1918840642, 3011101684, 3206300687, 2265317890, 3463030932, 417153830, 1575571934, 2958285935, 1622539381, 188650516, 3299719616, 568009634, 3787152651, 1767241802, 3664343362, 3812349912, 1803562288, 2154267290, 2281624473, 4076796346, 3038763409, 717859959, 3226180464, 3097199637, 1143177220, 1569326525, 1486200384, 2957143652, 1820847437, 2118197908, 736834565, 459939171, 483798042, 2676883510, 3521974415, 155522317, 2952819116, 2230197974, 4017917921, 2977353850, 1839004158, 590796294, 391857777, 1845742827, 280024913, 1124921173, 3938904076, 2556821342, 1117176787]
def stageA2 : List ℕ := [2147483648, 279925189, 2893088925, 636135997, 3019570967, 24546326, 1860774990, 2256063250, 4286297885, 3456236285, 3828254850, 1904716859, 2249539888, 2294256870, 2777468639, 1349998930, 3160784265, 1225256972, 1623886423, 3193335063, 1445156418, 830208930, 812658506, 1344728592, 3722463752, 3299498912, 3445105475, 2929115884, 3137932929, 135156064, 1843120409, 2789881946, 2411478582, 3003603418, 693539728, 1050912668, 2621505393, 1482298779, 4084130289, 277836669, 3219127066, 4215122040, 309282955, 4057683373, 1343888423, 856187525, 1291113795, 1696475748, 3325168865, 1036436373, 2408378201, 2462024394, 2978809697, 3153518673, 707931667, 463384209, 275568407, 509936800, 2419262004, 3146271214, 779696961, 3419017276, 4168215407, 3027705354, 1353452355, 794645213, 2100344468, 3217965001, 2516282486, 2905552980, 2405785668, 3625364515, 3941849319, 3960676281, 4171919258, 402718959, 1913828272, 1105301682, 3705208535, 1085684525, 1326640493, 3700818611, 337805347, 398621460, 3719657987, 2746067504, 2787714317, 961082774, 3584060392, 2892850965, 3003441634, 1178977927, 4080251279, 3989025583, 513709795, 1876091663, 2403147598, 179283414, 4001282840, 31554818, 891137156, 3635576403, 859131678, 3471765469, 296768679, 341987293, 1591684127, 3148865036, 267695159, 1693112478, 1675305243, 3083975235, 4212967543, 136586706, 4231140840, 1114240159, 2973984628, 2428898623, 626310867, 815895436, 3164659080, 2284795055, 1384352870, 999514170, 1258231796, 2043772521, 34860823, 2423629098, 110595825, 3529449838, 1544113456, 817882994, 2522345570, 3100587289, 1528092990, 4291072830, 3605167212, 2422558087, 2277658311, 336603657, 4249022207, 626297312, 628298112, 3712691939, 2917622652, 3593186505, 773651923, 2218370920, 1748572517, 3661487907, 3043882514, 942669427, 4215465336, 3487178321, 3482946337, 1601249908, 469597178, 1818491115, 80564289, 2221862694, 2216101671, 4019241556, 3674604594, 2357131299, 2992389838, 732813758, 947404084, 2266480073, 437047405, 1875383540, 3805400503, 3552901963, 2703925404, 718967271, 4051737087, 3898916345, 2840847890, 2006706590, 2609804162, 2871278936, 4189813876, 2531596767, 733114459, 2092395850, 4066940373, 2922144346, 8326138, 3562185378, 1628211718, 2162762403, 3818723621, 3879409563, 1968252583, 2162668284, 3066356526, 1809089960, 4108340113, 282490136, 2949529144, 1940323897, 1940200605, 1878774970, 1785179275, 1656759234, 3916984160, 81879010, 4250533656, 3409007898, 206634816, 1415574839, 3914221647, 1535646930, 1852362860, 3779563010, 2004064826, 3329305049, 193791403, 2942537095, 2412393864, 2264400735, 796018101, 2127279618, 3510875881, 2891053688, 1536630367, 830556865, 1938487543, 2973515872, 2875885233, 2326476783, 2380682517, 352066180, 1897062325, 4071375369, 3554851415, 1194400779, 4163953899, 977841416, 2550069388, 2911538986, 2090053422, 165401569, 3793122731, 3742645833, 2309810132, 2356147667, 3542982905, 2033691678, 1270108782, 1158604068, 1995821706, 4187659899, 4190466754, 766650195, 3032881065, 2373810016, 638928040, 3848227135, 2770821848, 724343279, 1460528927, 4019603819, 1938406370, 2855668456, 2335743307, 2378381496, 1147869714, 2161876642, 3227615774, 3760991014, 1573642799, 1385437628, 1249017785, 1125000767, 1817684589, 2195515566, 4175486934, 1964615512, 2778991034, 2478240576, 1922492705, 2606175116, 876746724, 3781519656, 3784007535, 256114694, 3113411354, 1061742010, 807914587, 514185517, 3541488655, 1341022931, 3495347199, 1704556115, 3078376128, 163309404, 514981036, 2492763276, 3770974649, 1097652888, 2708454729, 456837495, 1920856686, 301214971, 31184870, 1949766651, 2441459098, 189439853, 739856935, 3520331847, 3788773243, 3166820007, 337828826, 1631579992, 1550300092, 48580235, 2960613104, 3608415135, 1576604599, 1586324428, 2310666979, 894504079, 473950614, 203095536, 4164503157, 1495628974, 3732892462, 2182973760, 3020789253, 2531952414, 750471247, 3093222635, 372958735, 1527672907, 2975391482, 2025298253, 2113920247, 4012858393, 3020610381, 4072283490, 1104303097, 3928455961, 3274025787, 2422905566, 1446870279, 2033502282, 1154751487, 3934856826, 2229618828, 3936540955, 4200431068, 1420734279, 2362575667, 782410481, 2103513505, 2786166650, 3006573620, 1425759089, 2902378869, 3585595507, 682139375, 2487635930, 1775223026, 230213479, 3054377158, 2942128189, 608609324, 1444617422, 3462483062, 1216643257, 3384920070, 1706684308, 2257262314, 2279534740, 669389241, 4079011584, 1829175237, 1986065849, 3432604029, 2324011638, 1683014082, 3203745988, 4234947780, 1061343275, 2027033728, 2492332535, 1069486583, 2997552985, 823139251, 2423935613, 845226091, 4142416987, 1777785975, 1027197356, 217145583, 3616462829, 3357510694, 2012962537, 2561153328, 3458070289, 223716551, 3245415105, 2721998326, 2296063826, 2498978236, 98190780, 1161230560, 162714006, 1488819143, 1587776552, 4141082587, 3117123308, 1002595035, 4056304345, 4172840588, 802145496, 339083030, 2052349063, 3030507376, 2004830125, 318263239, 2936832102, 2824137892, 1668640209, 3195554732, 1325076011, 265015572, 1210333973, 3348105419, 1871106170, 598800538, 396085150, 2531414212, 1973162893, 428194342, 792586457, 793795123, 1468913206, 437809411, 1981482574, 954894943, 1278628775, 3880820604, 2333252688, 4187726558, 4219648645, 2239511190, 482285113, 2698130632, 391675253, 177656051, 3405220797, 274763961, 3864733440, 3607558740, 2401745714, 674308959, 3156664729, 1761454038, 946279179, 3471784765, 2476334046, 1043243098, 3194322170, 4169368284, 2991049876, 2842949521, 2073239679, 1998962611, 440335225, 1059592731, 622995024, 973127869, 3246600424, 130342971, 3603362438, 3312633039, 3257359703, 1970320682, 1053367865, 1936069442, 3981626660, 1206460077, 503518641, 4051830273, 1043692261, 3452655976, 4054064567, 1760719552, 58127176, 516937481, 2545083253, 2885240242, 4001257230, 2332870900, 3856734519, 3897510140, 2281824596, 6468565, 3199626967, 1059470054, 343413685, 1928034793, 776414663, 2091909390, 2648595793, 2575764583, 987730076, 666011272, 1091176804, 120227467, 1672319774, 1781257268, 1080209204, 2736397334, 32183507, 3355230493, 4126762422, 1131157144, 1200672969, 1448961183, 3618297786, 9488294, 3998842055, 2281836698, 2422318934, 357426703, 1943340735, 4073969204, 3304058646, 175011879, 2728352098, 103869720, 1060758655, 1214282351, 1531604026, 517890262, 1681592764, 3539311673, 3881871097, 3873775347, 3615999596, 160552549, 148419949, 4173241118, 2318728374, 204722481, 81960074, 2535567866, 2736734275, 3281640657, 243742967, 2464919329, 2467408270, 1709244339, 3125340747, 408462433, 1220913936, 2731658219, 761663095, 3523060552, 1434001627, 699491946, 1433237907, 3037659372, 567873425, 3094317138, 2843359028, 3453957991, 4284736866, 827827234, 2677702491, 3088358324, 1430864864, 772033361, 1918840642, 3011101684, 3206300687, 2265317890, 3463030932, 417153830, 1575571934, 2958285935, 1622539381, 188650516, 3299719616, 568009634, 3787152651, 1767241802, 3664343362, 3812349912, 1803562288, 2154267290, 2281624473, 4076796346, 3038763409, 717859959, 3226180464, 3097199637, 1143177220, 1569326525, 1486200384, 2957143652, 1820847437, 2118197908, 736834565, 459939171, 483798042, 2676883510, 3521974415, 155522317, 2952819116, 2230197974, 4017917921, 2977353850, 1839004158, 590796294, 391857777, 1845742827, 280024913, 1124921173, 3938904076, 2556821342, 1117176787]
def stageT2 : List ℕ := [2795783892, 395849121, 98570960, 2376100755, 2177522890, 2504717265, 2347188955, 1917192941, 4224845853, 924957857, 3900290900, 1538732895, 452740699, 1025323115, 3522177605, 3170372800, 2504372959, 1372949368, 2850833036, 2133087287, 1659478358, 2895759573, 1600925861, 1007184579, 3445206454, 1475366362, 876481703, 2062842931, 184297115, 2687403335, 1526802232, 2152601552, 906329239, 1998303570, 147461200, 30056355, 2159651231, 3107617281, 4268941752, 817866686, 705888778, 3391579545, 3623754823, 3387896979, 3434795578, 1478640898, 3114109282, 1133122673, 1013541776, 464715237, 1440798556, 1629226919, 3551247746, 3330766629, 1580231722, 2170440685, 3916014928, 3743382350, 3538132933, 3859090976, 2579753351, 2379080382, 1650236430, 1068600899, 490717807, 11991824, 948622273, 2994615527, 3838857406, 4005644211, 2391852721, 2606031647, 4114596986, 1132277206, 4029290232, 50960741, 3782473905, 2963287951, 798318543, 2079523494, 1969548497, 2791917028, 891823027, 3300138652, 3162773564, 2381659380, 1118269306, 3679597557, 4044061104, 2487822745, 193875499, 3361938136, 3969882624, 3364367527, 961749549, 2892483093, 2871625189, 3157497208, 2769397686, 4072775358, 1028681378, 1509430362, 13216230, 4009140330, 2269217924, 3297533753, 865127105, 2722294730, 2947232030, 828517429, 3091201378, 3274986092, 85465997, 959679615, 2610026894, 1921673102, 2433292660, 1756951456, 431742229, 3651973081, 686182206, 707645611, 1515806932, 1931669349, 1917507665, 2559672562, 3865292370, 1380017981, 3108911073, 2068398231, 1804268806, 4193791493, 25216325, 1743000760, 2642219261, 1833030446, 3993236067, 2458512851, 2286602721, 3111626614, 915494220, 3226211577, 1355645271, 2954276685, 630890711, 3348568147, 180643545, 363505523, 1042457592, 1451567672, 3254637420, 2860565318, 1576730548, 1029548446, 1631562189, 2668958428, 1009313060, 4270778188, 3095371224, 3277559597, 1057868346, 3478309362, 4065444537, 2295577647, 11521028, 898463984, 3488487336, 1627510789, 373097963, 269475414, 1502673486, 2638898985, 856038734, 2426361858, 1923125624, 3971836093, 780449583, 600011408, 667759086, 3483663822, 1835431999, 1272417008, 4029816369, 3101800723, 184508659, 4033632658, 1251781924, 2075709719, 1574017102, 3374129135, 187590169, 2331368390, 3659180092, 3092883023, 510291940, 589240205, 3482708245, 3843679910, 1438914130, 2316538598, 4155928877, 346088079, 1967362533, 1765159437, 451228081, 2397999592, 153044928, 946429236, 2563538497, 3066399131, 1897013875, 2830788608, 3780040590, 1929173008, 170939807, 1478503644, 1640364541, 4136880830, 3085453454, 3985064963, 675192176, 3752503104, 1184377453, 3083849893, 1796144563, 950547450, 1510532067, 1780069715, 3418687113, 3659237509, 3353241297, 541819855, 890528266, 2065608495, 2295739447, 1589824183, 1778772517, 3817261842, 225604810, 1689620940, 2700634436, 2046009423, 1249551163, 3516121397, 2397749582, 1500652079, 62882360, 1194559585, 2384378439, 1679219168, 2580387105, 2981827799, 2552360620, 3075848108, 1011533699, 1509328079, 193564935, 160601684, 1288760312, 2223718343, 3654821176, 1896794529, 349280983, 1546475493, 4292601437, 2621926577, 819095791, 1243857669, 3123802122, 538140047, 3768924237, 1888181561, 3769493186, 381611147, 1122263078, 1075381371, 1631465033, 1194513281, 684162567, 870873549, 3408723683, 68249560, 2985099129, 10795576, 2562554701, 3458920008, 3114368253, 416857973, 462929655, 3537848022, 3243118581, 2887521103, 3950178534, 590673569, 4137928521, 3951603432, 3834315253, 1744451250, 4225928787, 2088806913, 2548627890, 3373592527, 2465939399, 3785233218, 330503853, 660047106, 2808020431, 4200658205, 395048216, 3704264913, 64767248, 4136990161, 3177892696, 1821685412, 1126703215, 3912292040, 1724619913, 4235884335, 3878005566, 1900795822, 187177535, 927782630, 2859119853, 238917120, 3500223279, 2318275105, 3016710686, 4267578751, 311252949, 3483155742, 1808890560, 1431586652, 1879300035, 725394876, 1192335283, 140275642, 2684170982, 2066882587, 3127467229, 4244210350, 2502459692, 1661713612, 985606881, 1662981928, 1411553157, 2732154933, 3974642916, 1788144504, 3329494265, 662167098, 2155677721, 3979046167, 1455972693, 1104909917, 1095345280, 3772015099, 2285657584, 3841794403, 170619619, 3436985069, 1841771349, 3919245444, 4069851202, 4110745088, 1546646802, 3664354295, 2457479441, 295826295, 1023861882, 1949132116, 3268040839, 652159906, 2222481433, 3225411290, 742049011, 3517541573, 4106084411, 2126107405, 4022472317, 802332501, 572984828, 520732591, 1505544726, 4321124, 1841343336, 2124981756, 1124508766, 4270683964, 1583829011, 845800019, 716123869, 3982234336, 722574374, 1352537856, 3553493804, 1915929592, 4076519933, 1438971606, 1665936510, 3970203634, 690972093, 599761795, 2832268052, 1694304241, 1630425166, 89542046, 3413972229, 3627024643, 1686523108, 1381195011, 3825498725, 3457605953, 1367854113, 918590050, 744436603, 1472948165, 1832878451, 293505441, 1749207247, 1248739072, 2950686332, 1245714870, 3417117114, 3500788931, 460116332, 1377959640, 923353011, 1299629463, 1667467954, 1687940520, 1660670402, 294918611, 1831348465, 98409171, 3070171527, 376234887, 2634244736, 3843467821, 2478304039, 1681072766, 3455009052, 966269473, 497640180, 487073938, 307898147, 4116075973, 986742720, 945260308, 219031845, 3671847627, 196912548, 3124102448, 193306746, 831233737, 764045514, 114632697, 1560299670, 3013653818, 2775628437, 2339065675, 852640448, 3619775514, 1106277578, 373566283, 3131387224, 3234021341, 2155131180, 39978562, 3991170348, 3437633257, 3271741981, 182587855, 2041821787, 3646243578, 1817243938, 1974429951, 2618148756, 3816148916, 936848148, 2710759181, 2180829502, 3333879818, 3489644232, 2856329944, 3481312249, 1781876556, 1699840451, 2913016920, 1890955269, 2193539468, 3472660096, 2854700164, 3950528310, 1968442517, 2715549505, 3457602676, 1679011109, 966578552, 4141406861, 3208575921, 2240435598, 3801705485, 3459393095, 1600532174, 3503640054, 4245440747, 1854386563, 3639983527, 613704554, 728829155, 829584311, 2913505623, 3994794450, 2821485302, 3240461763, 2707517094, 2820928525, 2700608697, 383568884, 1498739318, 149003644, 3068896410, 1168941140, 2693401016, 801826073, 676121995, 3697449345, 2927694504, 2875398212, 1321513739, 4040278003, 1353408545, 2713962466, 442920999, 3620061952, 417645939, 4007071759, 3014540243, 472749682, 1460729086, 123164050, 2666036098, 1951677601, 1519702278, 3110078836, 942994297, 1933220331, 12108482, 4291544600, 1387194970, 3497441956, 1088179296, 3282487014, 1480037656, 2054344837, 3349787962, 3959318678, 3820040170, 2599415992, 1492977255, 3632825614, 1405691014, 3152176044, 2239410832, 3000375052, 2791217396, 2823067956, 1791994432, 481971837, 1645541616, 4124743770, 136895071, 3363684805, 1659021715, 1404796121, 3754487043, 3790687458, 3288205592, 2317334877, 447135942, 1865367218, 3228105320, 159788830, 2376275962, 3333160323, 1522983730, 1695098039, 426626928, 3299756069, 2198399918, 2160388248, 1545352287, 10371812, 3942995404, 3525750624, 4050289310, 1409853676, 126822994, 1154411424, 867553816, 3967095290, 874247105, 1055009468, 3416093041, 4064606672, 2071965715, 565807448, 769658343, 4009199415, 2216095823, 406968242, 800564227, 2417906387, 465423459, 2286095299, 1341930256, 2697785780, 2225502327, 2081212823, 2476694355, 1711104774, 2684157059, 2322666190, 3785941655]
def chunk2a : List ℕ := [0, 1, 2, 3, 4, 5, 210, 223, 8, 224, 10, 11, 12, 13, 14, 15, 16, 17, 18, 19, 20, 253, 22, 254, 24, 25, 26, 27, 255, 29, 30, 31, 32, 33, 206, 35, 36, 37, 38, 39, 237, 189, 215, 250, 248, 209, 199, 47, 48, 49, 50, 51, 52, 53, 242, 55, 56, 57, 58, 211, 212, 61, 62, 187, 244, 65, 66, 67, 225, 69, 70, 181, 72, 73, 74, 75, 76, 77, 245, 79, 80, 219, 82, 208, 84, 85, 86, 87, 88, 173, 177, 91, 191, 194, 94, 229, 96, 246, 98, 99, 234, 101, 196, 103, 104, 105, 197, 107, 217, 109, 236, 111, 112, 227, 190, 115, 175, 117, 238, 231, 120, 121, 122, 123, 124, 182, 126, 180, 179, 129, 204, 178, 132, 133, 195, 184, 136, 137, 138, 228, 140, 141, 247, 200, 144, 201, 146, 147, 239, 149, 150, 193, 152, 153, 154, 241, 156, 157, 158, 159, 160, 161, 162, 235, 164, 165, 166, 232, 168, 176, 170, 142, 145, 89, 186, 116, 169, 192, 202, 226, 127, 71, 125, 63, 135, 167, 118, 183, 102, 41, 198, 203, 90, 151, 221, 216, 249, 106, 114, 46, 214, 172, 131, 252, 233, 230, 34, 44, 83, 251, 6, 59, 60, 45, 143, 42, 134, 108, 97, 81, 119, 93, 7, 222, 240, 68, 128, 113, 139, 95, 130, 220, 185, 205, 100, 163, 110, 40, 174, 148, 9, 243, 54, 155, 64, 78, 218, 171, 207, 188, 43, 213, 92, 21, 23, 28]
def chunk2b : List ℕ := [98, 1, 170, 177, 99, 103, 210, 223, 121, 224, 123, 11, 247, 13, 236, 138, 227, 17, 18, 234, 111, 253, 22, 109, 24, 25, 26, 228, 255, 29, 30, 196, 190, 33, 137, 35, 238, 37, 38, 173, 237, 189, 165, 179, 246, 209, 199, 115, 201, 105, 50, 51, 52, 195, 242, 55, 232, 107, 140, 211, 212, 61, 91, 187, 244, 65, 164, 67, 136, 141, 147, 181, 72, 73, 74, 112, 76, 193, 96, 153, 229, 219, 82, 166, 84, 85, 160, 70, 57, 39, 120, 184, 250, 36, 162, 80, 245, 180, 197, 4, 239, 126, 101, 231, 75, 49, 0, 88, 66, 254, 94, 20, 154, 16, 32, 47, 146, 117, 149, 5, 176, 241, 204, 10, 3, 86, 31, 248, 156, 191, 14, 8, 217, 158, 152, 62, 235, 206, 133, 144, 58, 69, 12, 15, 27, 48, 2, 87, 19, 194, 178, 182, 53, 161, 104, 150, 159, 132, 200, 129, 77, 79, 122, 225, 157, 215, 208, 56, 168, 124, 175, 142, 145, 89, 186, 116, 169, 192, 202, 226, 127, 71, 125, 63, 135, 167, 118, 183, 102, 41, 198, 203, 90, 151, 221, 216, 249, 106, 114, 46, 214, 172, 131, 252, 233, 230, 34, 44, 83, 251, 6, 59, 60, 45, 143, 42, 134, 108, 97, 81, 119, 93, 7, 222, 240, 68, 128, 113, 139, 95, 130, 220, 185, 205, 100, 163, 110, 40, 174, 148, 9, 243, 54, 155, 64, 78, 218, 171, 207, 188, 43, 213, 92, 21, 23, 28]
def mtPermList2 : List ℕ := [22, 244, 147, 238, 224, 199, 105, 181, 30, 96, 24, 166, 187, 67, 72, 219, 253, 26, 196, 111, 25, 223, 229, 211, 137, 232, 38, 76, 247, 61, 201, 98, 17, 228, 173, 109, 74, 37, 85, 55, 99, 82, 115, 138, 242, 209, 190, 236, 193, 29, 210, 52, 123, 140, 170, 73, 112, 165, 121, 35, 246, 1, 136, 195, 141, 84, 179, 18, 189, 65, 91, 50, 164, 227, 107, 177, 13, 237, 11, 255, 212, 234, 153, 51, 33, 103, 160, 70, 57, 39, 120, 184, 250, 36, 162, 80, 245, 180, 197, 4, 239, 126, 101, 231, 75, 49, 0, 88, 66, 254, 94, 20, 154, 16, 32, 47, 146, 117, 149, 5, 176, 241, 204, 10, 3, 86, 31, 248, 156, 191, 14, 8, 217, 158, 152, 62, 235, 206, 133, 144, 58, 69, 12, 15, 27, 48, 2, 87, 19, 194, 178, 182, 53, 161, 104, 150, 159, 132, 200, 129, 77, 79, 122, 225, 157, 215, 208, 56, 168, 124, 175, 142, 145, 89, 186, 116, 169, 192, 202, 226, 127, 71, 125, 63, 135, 167, 118, 183, 102, 41, 198, 203, 90, 151, 221, 216, 249, 106, 114, 46, 214, 172, 131, 252, 233, 230, 34, 44, 83, 251, 6, 59, 60, 45, 143, 42, 134, 108, 97, 81, 119, 93, 7, 222, 240, 68, 128, 113, 139, 95, 130, 220, 185, 205, 100, 163, 110, 40, 174, 148, 9, 243, 54, 155, 64, 78, 218, 171, 207, 188, 43, 213, 92, 21, 23, 28]

/-! ### Exact rational model of the Python float helpers

Python floats are modelled by ℚ; `int()`, `%`, `round(_, n)`, `max`, `min`
are modelled exactly on the idealized reals. -/

/-- Python int(x): truncation toward zero. -/
def pyint (x : ℚ) : ℤ := if 0 ≤ x then ⌊x⌋ else ⌈x⌉

/-- Python x % m for a positive real modulus m: the representative of x in
[0, m) (the result carries the sign of the divisor). -/
def pymod (x m : ℚ) : ℚ := x - m * ⌊x / m⌋

/-- Python round-half-to-even of a real to an integer. -/
def pyRoundHalfEven (x : ℚ) : ℤ :=
  if x - ⌊x⌋ < 1/2 then ⌊x⌋
  else if 1/2 < x - ⌊x⌋ then ⌊x⌋ + 1
  else if ⌊x⌋ % 2 = 0 then ⌊x⌋ else ⌊x⌋ + 1

/-- Python round(x, 2). -/
def pyround2 (x : ℚ) : ℚ := (pyRoundHalfEven (100 * x) : ℚ) / 100

/-- Python round(x, 1). -/
def pyround1 (x : ℚ) : ℚ := (pyRoundHalfEven (10 * x) : ℚ) / 10

/-! ### NoiseGenerator (terrain_generator.py lines 38-95)

The permutation table is `list(range(256))` shuffled by the seeded stdlib
PRNG and then duplicated (`self.perm *= 2`).  The shuffle outcome enters as
an explicit function argument where needed, instantiated with the exact
CPython MT19937 model `pyPermOfSeed` for concrete runs and quantified over
arbitrary permutations of range(256) in the general theorems. -/

/-- The 512-entry table: `self.perm = shuffled; self.perm *= 2`. -/
def permTable (shuffled : List ℕ) : List ℕ := shuffled ++ shuffled

/-- NoiseGenerator.fade: 6t^5 - 15t^4 + 10t^3. -/
def fade (t : ℚ) : ℚ := t * t * t * (t * (t * 6 - 15) + 10)

/-- NoiseGenerator.lerp. -/
def lerp (t a b : ℚ) : ℚ := a + t * (b - a)

/-- NoiseGenerator.grad: hash-selected gradient dot product.
h & 1 and h & 2 are the parity of h and of h / 2. -/
def grad (hashVal : ℕ) (x y : ℚ) : ℚ :=
  let h := hashVal % 16
  let u := if h < 8 then x else y
  let v := if h < 4 then y else (if h = 12 ∨ h = 14 then x else 0)
  (if h % 2 = 0 then u else -u) + (if h / 2 % 2 = 0 then v else -v)

/-- The grid-cell index `int(x) & 255`: Python's bitwise and on a (possibly
negative, arbitrary-precision) int with 255 equals the nonnegative residue
of the truncated value mod 256. -/
def cellIndex (x : ℚ) : ℕ := ((pyint x).emod 256).toNat

/-- The in-cell offset `x -= int(x)` (negative when x is a
negative non-integer, since int() truncates toward zero). -/
def fracPart (x : ℚ) : ℚ := x - pyint x

/-- The corner hash `a = self.perm[xi] + yi`. -/
def cornerA (p : List ℕ) (x y : ℚ) : ℕ := p.getD (cellIndex x) 0 + cellIndex y

/-- The corner hash `b = self.perm[xi + 1] + yi`. -/
def cornerB (p : List ℕ) (x y : ℚ) : ℕ := p.getD (cellIndex x + 1) 0 + cellIndex y

/-- NoiseGenerator.noise: Perlin noise at (x, y) over permutation table p. -/
def noise (p : List ℕ) (x y : ℚ) : ℚ :=
  let fx := fracPart x
  let fy := fracPart y
  let u := fade fx
  let v := fade fy
  let a := cornerA p x y
  let aa := p.getD a 0
  let ab := p.getD (a + 1) 0
  let b := cornerB p x y
  let ba := p.getD b 0
  let bb := p.getD (b + 1) 0
  lerp v (lerp u (grad (p.getD aa 0) fx fy) (grad (p.getD ba 0) (fx - 1) fy))
    (lerp u (grad (p.getD ab 0) fx (fy - 1)) (grad (p.getD bb 0) (fx - 1) (fy - 1)))

/-- Every index at which `noise p x y` subscripts the permutation table:
perm[xi], perm[xi+1], perm[a], perm[a+1], perm[b], perm[b+1], and the
gradient hashes perm[aa], perm[ab], perm[ba], perm[bb]. -/
def noiseIndices (p : List ℕ) (x y : ℚ) : List ℕ :=
  [cellIndex x, cellIndex x + 1,
   cornerA p x y, cornerA p x y + 1,
   cornerB p x y, cornerB p x y + 1,
   p.getD (cornerA p x y) 0, p.getD (cornerA p x y + 1) 0,
   p.getD (cornerB p x y) 0, p.getD (cornerB p x y + 1) 0]

/-- Follows the spec's words (section 4.1, step 1): `xi = floor(x) mod 256`,
for comparison with the truncation-based `cellIndex` of the source. -/
def specXi (x : ℚ) : ℕ := ((⌊x⌋ : ℤ).emod 256).toNat

/-- Follows the spec's words (section 4.1, step 2): `fx = x - floor(x)`. -/
def specFrac (x : ℚ) : ℚ := x - ⌊x⌋

/-- Follows the spec's words: noise with floor-based cell indices and
offsets, for comparison with the truncation-based `noise` of the source. -/
def noiseFloorSpec (p : List ℕ) (x y : ℚ) : ℚ :=
  let fx := specFrac x
  let fy := specFrac y
  let u := fade fx
  let v := fade fy
  let a := p.getD (specXi x) 0 + specXi y
  let aa := p.getD a 0
  let ab := p.getD (a + 1) 0
  let b := p.getD (specXi x + 1) 0 + specXi y
  let ba := p.getD b 0
  let bb := p.getD (b + 1) 0
  lerp v (lerp u (grad (p.getD aa 0) fx fy) (grad (p.getD ba 0) (fx - 1) fy))
    (lerp u (grad (p.getD ab 0) fx (fy - 1)) (grad (p.getD bb 0) (fx - 1) (fy - 1)))

def exceptDecEq {ε α : Type} [DecidableEq ε] [DecidableEq α] : DecidableEq (Except ε α)
  | .error e1, .error e2 =>
    if h : e1 = e2 then isTrue (congrArg Except.error h)
    else isFalse fun hc => h (by injection hc)
  | .ok v1, .ok v2 =>
    if h : v1 = v2 then isTrue (congrArg Except.ok h)
    else isFalse fun hc => h (by injection hc)
  | .error _, .ok _ => isFalse fun hc => by injection hc
  | .ok _, .error _ => isFalse fun hc => by injection hc

instance {ε α : Type} [DecidableEq ε] [DecidableEq α] : DecidableEq (Except ε α) :=
  exceptDecEq

/-! ### TerrainGenerator (terrain_generator.py lines 98-257) -/

structure Coordinates where
  x : ℚ
  y : ℚ
  z : ℚ
  deriving DecidableEq, Repr

/-- A value of the characteristics dict of a biome. -/
inductive CharVal where
  | num (q : ℚ)
  | str (s : String)
  | strs (l : List String)
  deriving DecidableEq, Repr

structure BiomeInfo where
  type : String
  coverage : ℚ
  characteristics : List (String × CharVal)
  deriving DecidableEq, Repr

/-- TerrainResult.  processingTime (wall-clock milliseconds) is outside the
functional model and omitted; `seed` is the stored `seed or 0`. -/
structure TerrainResult where
  heightMap : List (List ℚ)
  biomes : List BiomeInfo
  algorithm : String
  seed : ℤ
  deriving DecidableEq, Repr

/-- The resolved seed `self.seed = seed or random.randint(0, 10000)`: Python `or` takes the
right operand when seed is None or 0 (both falsy); draw stands for the
randint result. -/
def effectiveSeed (draw : ℕ) (seed : Option ℤ) : ℤ :=
  match seed with
  | some s => if s = 0 then (draw : ℤ) else s
  | none => (draw : ℤ)

/-- NoiseGenerator.__init__ for TerrainGenerator: resolve the effective seed,
perform np.random.seed's range check (it raises ValueError outside
[0, 2^32)), and build the duplicated permutation table from the stdlib
shuffle outcome `shuffleOf` at the effective seed. -/
def mkNoiseGen (shuffleOf : ℕ → List ℕ) (draw : ℕ) (seed : Option ℤ) :
    Except String (List ℕ) :=
  let eff := effectiveSeed draw seed
  if eff < 0 ∨ 4294967296 ≤ eff then
    .error "Seed must be between 0 and 2**32 - 1"
  else
    .ok (permTable (shuffleOf eff.toNat))

/-- One octave of the inner loop of _generate_perlin_terrain: state is
(height, current_amplitude, current_frequency); px, py are x + offset_x and
y + offset_y, scale is 0.1. -/
def octaveStep (p : List ℕ) (px py : ℚ) (s : ℚ × ℚ × ℚ) : ℚ × ℚ × ℚ :=
  (s.1 + noise p (px * (1/10) * s.2.2) (py * (1/10) * s.2.2) * s.2.1,
   s.2.1 * (1/2), s.2.2 * 2)

/-- The octave loop after n rounds, from height 0, amplitude 100,
frequency 1. -/
def octaves (p : List ℕ) (px py : ℚ) : ℕ → ℚ × ℚ × ℚ
  | 0 => (0, 100, 1)
  | n + 1 => octaveStep p px py (octaves p px py n)

/-- One cell of the height map: 4 octaves, plus the z elevation bias 0.1·z,
clamped to 0 and rounded to 2 decimals.  offset_x/offset_y are 0.01 times
the world x/y. -/
def cellHeight (p : List ℕ) (c : Coordinates) (xi yi : ℕ) : ℚ :=
  let px := (xi : ℚ) + c.x * (1/100)
  let py := (yi : ℚ) + c.y * (1/100)
  pyround2 (max 0 ((octaves p px py 4).1 + c.z * (1/10)))

/-- The size × size height map, rows indexed by y, columns by x. -/
def perlinHeightMap (p : List ℕ) (c : Coordinates) (size : ℕ) : List (List ℚ) :=
  (List.range size).map fun y => (List.range size).map fun x => cellHeight p c x y

/-- _generate_perlin_terrain: build the NoiseGenerator from the seed, then
sample the grid. -/
def generatePerlinTerrain (shuffleOf : ℕ → List ℕ) (draw : ℕ) (c : Coordinates)
    (seed : Option ℤ) (size : ℕ) : Except String (List (List ℚ)) :=
  (mkNoiseGen shuffleOf draw seed).map fun p => perlinHeightMap p c size

/-- _generate_diamond_square_terrain: "For simplicity, fall back to Perlin
for now". -/
def generateDiamondSquareTerrain (shuffleOf : ℕ → List ℕ) (draw : ℕ)
    (c : Coordinates) (seed : Option ℤ) (size : ℕ) : Except String (List (List ℚ)) :=
  generatePerlinTerrain shuffleOf draw c seed size

/-- _generate_simplex_terrain: same placeholder delegation. -/
def generateSimplexTerrain (shuffleOf : ℕ → List ℕ) (draw : ℕ)
    (c : Coordinates) (seed : Option ℤ) (size : ℕ) : Except String (List (List ℚ)) :=
  generatePerlinTerrain shuffleOf draw c seed size

/-- The land humidity `0.5 + (coordinates.y % 100) * 0.005`. -/
def humidity (y : ℚ) : ℚ := 1/2 + pymod y 100 * (1/200)

/-- The land temperature `max(5, 20 - coordinates.z * 0.02)`. -/
def landTemperature (z : ℚ) : ℚ := max 5 (20 - z * (1/50))

/-- min(all_heights): Python's min over the nonempty list h0 :: rest. -/
def minHeight (h0 : ℚ) (rest : List ℚ) : ℚ := rest.foldl min h0

/-- max(all_heights). -/
def maxHeight (h0 : ℚ) (rest : List ℚ) : ℚ := rest.foldl max h0

/-- The threshold `water_level = min_height + (max_height - min_height) * 0.2`. -/
def waterLevel (h0 : ℚ) (rest : List ℚ) : ℚ :=
  minHeight h0 rest + (maxHeight h0 rest - minHeight h0 rest) * (1/5)

/-- The threshold `mountain_level = min_height + (max_height - min_height) * 0.7`. -/
def mountainLevel (h0 : ℚ) (rest : List ℚ) : ℚ :=
  minHeight h0 rest + (maxHeight h0 rest - minHeight h0 rest) * (7/10)

/-- The count `water_cells = sum(1 for h in all_heights if h <= water_level)`. -/
def waterCells (h0 : ℚ) (rest : List ℚ) : ℕ :=
  ((h0 :: rest).filter fun h => h ≤ waterLevel h0 rest).length

/-- The count `mountain_cells = sum(1 for h in all_heights if h >= mountain_level)`. -/
def mountainCells (h0 : ℚ) (rest : List ℚ) : ℕ :=
  ((h0 :: rest).filter fun h => mountainLevel h0 rest ≤ h).length

/-- The count `land_cells = total_cells - water_cells - mountain_cells` (a Python
int, possibly negative). -/
def landCells (total : ℕ) (h0 : ℚ) (rest : List ℚ) : ℤ :=
  (total : ℤ) - waterCells h0 rest - mountainCells h0 rest

/-- The ocean segment. -/
def oceanSeg (c : Coordinates) (avg cov : ℚ) : BiomeInfo :=
  ⟨"ocean", cov,
    [("depth", .num (pyround2 (avg * (1/2)))),
     ("salinity", .num (7/200)),
     ("temperature", .num (max 10 (25 - c.z * (1/100))))]⟩

/-- The mountain segment. -/
def mountainSeg (c : Coordinates) (mx cov : ℚ) : BiomeInfo :=
  ⟨"mountain", cov,
    [("elevation", .num (pyround2 mx)),
     ("rockType", .str (if pymod c.x 2 = 0 then "granite" else "limestone")),
     ("snowLine", .num (pyround2 (mx * (4/5))))]⟩

/-- The single land segment: desert when `temperature > 25 and
humidity < 0.3`, else forest. -/
def landSeg (c : Coordinates) (cov : ℚ) : BiomeInfo :=
  if 25 < landTemperature c.z ∧ humidity c.y < 3/10 then
    ⟨"desert", cov,
      [("temperature", .num (pyround1 (landTemperature c.z))),
       ("sandType", .str "quartz"),
       ("rainfall", .num (pyround1 (humidity c.y * 100)))]⟩
  else
    ⟨"forest", cov,
      [("treeTypes", .strs ["oak", "pine", "birch"]),
       ("density", .num (pyround2 (min 1 (humidity c.y + 1/5)))),
       ("temperature", .num (pyround1 (landTemperature c.z)))]⟩

/-- _analyze_biomes.  Returns none exactly when the height map has no cell,
where Python's min()/max() on the empty sequence raises ValueError. -/
def analyzeBiomes (hm : List (List ℚ)) (c : Coordinates) : Option (List BiomeInfo) :=
  let total := hm.length * hm.length
  match hm.flatten with
  | [] => none
  | h0 :: rest =>
    let avg := (h0 :: rest).sum / (h0 :: rest).length
    let w := waterCells h0 rest
    let m := mountainCells h0 rest
    let land := landCells total h0 rest
    let oceans := if 0 < w then [oceanSeg c avg ((w : ℚ) / (total : ℚ))] else []
    let mountains :=
      if 0 < m then [mountainSeg c (maxHeight h0 rest) ((m : ℚ) / (total : ℚ))] else []
    let lands := if 0 < land then [landSeg c ((land : ℚ) / (total : ℚ))] else []
    some (oceans ++ mountains ++ lands)

def supportedAlgorithms : List String := ["perlin_noise", "diamond_square", "simplex_noise"]

/-- The rest of generate_terrain after the height map is built: biome
analysis and result assembly (seed field is `seed or 0`). -/
def finishTerrain (c : Coordinates) (algorithm : String) (seedStored : ℤ)
    (hm : List (List ℚ)) : Except String TerrainResult :=
  match analyzeBiomes hm c with
  | none => .error "min() arg is an empty sequence"
  | some biomes => .ok ⟨hm, biomes, algorithm, seedStored⟩

/-- TerrainGenerator.generate_terrain: reject unknown algorithm names, build
the height map with the selected algorithm (all three declared algorithms
delegate to the Perlin implementation), analyze biomes, assemble the result.
Raised ValueErrors surface as `.error`. -/
def generateTerrain (shuffleOf : ℕ → List ℕ) (draw : ℕ) (c : Coordinates)
    (algorithm : String) (seed : Option ℤ) (size : ℕ) : Except String TerrainResult :=
  if algorithm ∉ supportedAlgorithms then
    .error ("Unknown algorithm: " ++ algorithm)
  else
    match (if algorithm = "diamond_square" then
             generateDiamondSquareTerrain shuffleOf draw c seed size
           else if algorithm = "simplex_noise" then
             generateSimplexTerrain shuffleOf draw c seed size
           else
             generatePerlinTerrain shuffleOf draw c seed size) with
    | .error e => .error e
    | .ok hm => finishTerrain c algorithm (seed.getD 0) hm


theorem shuffleSteps_add (m n : ℕ) (s : MTState × List ℕ × ℕ) :
    shuffleSteps (m + n) s = shuffleSteps n (shuffleSteps m s) := by
  induction m generalizing s with
  | zero =>
    rw [Nat.zero_add]
    rfl
  | succ k ih =>
    rw [Nat.succ_add]
    show shuffleSteps (k + n) (shuffleStep s) = _
    rw [ih]
    rfl

theorem passSteps_nil (f : ℕ → ℕ → ℕ → ℕ) (n prev i : ℕ) (acc : List ℕ) :
    passSteps f n (prev, i, [], acc) = (prev, i, [], acc) := by
  cases n <;> rfl

theorem passSteps_add (f : ℕ → ℕ → ℕ → ℕ) (m n : ℕ) (st : ℕ × ℕ × List ℕ × List ℕ) :
    passSteps f (m + n) st = passSteps f n (passSteps f m st) := by
  induction m generalizing st with
  | zero =>
    rw [Nat.zero_add]
    rfl
  | succ k ih =>
    obtain ⟨prev, i, rest, acc⟩ := st
    cases rest with
    | nil => rw [passSteps_nil, passSteps_nil, passSteps_nil]
    | cons c rest =>
      rw [Nat.succ_add]
      show passSteps f (k + n) (f i prev c, i + 1, rest, f i prev c :: acc) = _
      rw [ih]
      rfl

set_option maxRecDepth 16000 in
theorem hL0 : mtInitGenrand 19650218 = stageL0 := by decide

set_option maxRecDepth 12000 in
theorem hP11c0 : passSteps (fun _ prev cur => mixA 1 prev cur) 125 (stageL0.headD 0, 1, stageL0.tail, []) = (passB1.getD 124 0, 126, stageL0.drop 126, (passB1.take 125).reverse) := by decide

set_option maxRecDepth 12000 in
theorem hP11c1 : passSteps (fun _ prev cur => mixA 1 prev cur) 125 (passB1.getD 124 0, 126, stageL0.drop 126, (passB1.take 125).reverse) = (passB1.getD 249 0, 251, stageL0.drop 251, (passB1.take 250).reverse) := by decide

set_option maxRecDepth 12000 in
theorem hP11c2 : passSteps (fun _ prev cur => mixA 1 prev cur) 125 (passB1.getD 249 0, 251, stageL0.drop 251, (passB1.take 250).reverse) = (passB1.getD 374 0, 376, stageL0.drop 376, (passB1.take 375).reverse) := by decide

set_option maxRecDepth 12000 in
theorem hP11c3 : passSteps (fun _ prev cur => mixA 1 prev cur) 125 (passB1.getD 374 0, 376, stageL0.drop 376, (passB1.take 375).reverse) = (passB1.getD 499 0, 501, stageL0.drop 501, (passB1.take 500).reverse) := by decide

set_option maxRecDepth 12000 in
theorem hP11c4 : passSteps (fun _ prev cur => mixA 1 prev cur) 123 (passB1.getD 499 0, 501, stageL0.drop 501, (passB1.take 500).reverse) = (passB1.getD 622 0, 624, stageL0.drop 624, (passB1.take 623).reverse) := by decide

set_option maxRecDepth 12000 in
theorem hB1 : ibaLoop1 1 stageL0 = stageB1 := by
  simp only [ibaLoop1, passAll]
  rw [show (623 : ℕ) = 125 + (125 + (125 + (125 + 123))) from rfl]
  rw [passSteps_add, hP11c0, passSteps_add, hP11c1, passSteps_add, hP11c2, passSteps_add, hP11c3, hP11c4]
  decide

set_option maxRecDepth 12000 in
theorem hP12c0 : passSteps mixB 125 (stageB1.getD 1 0, 2, stageB1.drop 2, []) = (passC1.getD 124 0, 127, stageB1.drop 127, (passC1.take 125).reverse) := by decide

set_option maxRecDepth 12000 in
theorem hP12c1 : passSteps mixB 125 (passC1.getD 124 0, 127, stageB1.drop 127, (passC1.take 125).reverse) = (passC1.getD 249 0, 252, stageB1.drop 252, (passC1.take 250).reverse) := by decide

set_option maxRecDepth 12000 in
theorem hP12c2 : passSteps mixB 125 (passC1.getD 249 0, 252, stageB1.drop 252, (passC1.take 250).reverse) = (passC1.getD 374 0, 377, stageB1.drop 377, (passC1.take 375).reverse) := by decide

set_option maxRecDepth 12000 in
theorem hP12c3 : passSteps mixB 125 (passC1.getD 374 0, 377, stageB1.drop 377, (passC1.take 375).reverse) = (passC1.getD 499 0, 502, stageB1.drop 502, (passC1.take 500).reverse) := by decide

set_option maxRecDepth 12000 in
theorem hP12c4 : passSteps mixB 122 (passC1.getD 499 0, 502, stageB1.drop 502, (passC1.take 500).reverse) = (passC1.getD 621 0, 624, stageB1.drop 624, (passC1.take 622).reverse) := by decide

set_option maxRecDepth 12000 in
theorem hA1 : ibaLoop2 stageB1 = stageA1 := by
  simp only [ibaLoop2, passAll]
  rw [show (622 : ℕ) = 125 + (125 + (125 + (125 + 122))) from rfl]
  rw [passSteps_add, hP12c0, passSteps_add, hP12c1, passSteps_add, hP12c2, passSteps_add, hP12c3, hP12c4]
  decide

set_option maxRecDepth 30000 in
theorem hT1 : mtTwist stageA1 = stageT1 := by decide

set_option maxRecDepth 30000 in
theorem hC1a : shuffleSteps 85 (⟨stageT1, 0⟩, List.range 256, 255) = (⟨stageT1, 110⟩, chunk1a, 170) := by decide

set_option maxRecDepth 30000 in
theorem hC1b : shuffleSteps 85 ((⟨stageT1, 110⟩, chunk1a, 170) : MTState × List ℕ × ℕ) = (⟨stageT1, 251⟩, chunk1b, 85) := by decide

set_option maxRecDepth 30000 in
theorem hC1c : shuffleSteps 85 ((⟨stageT1, 251⟩, chunk1b, 85) : MTState × List ℕ × ℕ) = (⟨stageT1, 382⟩, mtPermList1, 0) := by decide

theorem perm1_eq : pyPermOfSeed 1 = mtPermList1 := by
  unfold pyPermOfSeed mtSeedState initByArray1 ibaMix
  rw [hL0, hB1, hA1, hT1]
  rw [show (255 : ℕ) = 85 + (85 + 85) from rfl, shuffleSteps_add, hC1a,
    shuffleSteps_add, hC1b, hC1c]

set_option maxRecDepth 12000 in
theorem hP21c0 : passSteps (fun _ prev cur => mixA 2 prev cur) 125 (stageL0.headD 0, 1, stageL0.tail, []) = (passB2.getD 124 0, 126, stageL0.drop 126, (passB2.take 125).reverse) := by decide

set_option maxRecDepth 12000 in
theorem hP21c1 : passSteps (fun _ prev cur => mixA 2 prev cur) 125 (passB2.getD 124 0, 126, stageL0.drop 126, (passB2.take 125).reverse) = (passB2.getD 249 0, 251, stageL0.drop 251, (passB2.take 250).reverse) := by decide

set_option maxRecDepth 12000 in
theorem hP21c2 : passSteps (fun _ prev cur => mixA 2 prev cur) 125 (passB2.getD 249 0, 251, stageL0.drop 251, (passB2.take 250).reverse) = (passB2.getD 374 0, 376, stageL0.drop 376, (passB2.take 375).reverse) := by decide

set_option maxRecDepth 12000 in
theorem hP21c3 : passSteps (fun _ prev cur => mixA 2 prev cur) 125 (passB2.getD 374 0, 376, stageL0.drop 376, (passB2.take 375).reverse) = (passB2.getD 499 0, 501, stageL0.drop 501, (passB2.take 500).reverse) := by decide

set_option maxRecDepth 12000 in
theorem hP21c4 : passSteps (fun _ prev cur => mixA 2 prev cur) 123 (passB2.getD 499 0, 501, stageL0.drop 501, (passB2.take 500).reverse) = (passB2.getD 622 0, 624, stageL0.drop 624, (passB2.take 623).reverse) := by decide

set_option maxRecDepth 12000 in
theorem hB2 : ibaLoop1 2 stageL0 = stageB2 := by
  simp only [ibaLoop1, passAll]
  rw [show (623 : ℕ) = 125 + (125 + (125 + (125 + 123))) from rfl]
  rw [passSteps_add, hP21c0, passSteps_add, hP21c1, passSteps_add, hP21c2, passSteps_add, hP21c3, hP21c4]
  decide

set_option maxRecDepth 12000 in
theorem hP22c0 : passSteps mixB 125 (stageB2.getD 1 0, 2, stageB2.drop 2, []) = (passC2.getD 124 0, 127, stageB2.drop 127, (passC2.take 125).reverse) := by decide

set_option maxRecDepth 12000 in
theorem hP22c1 : passSteps mixB 125 (passC2.getD 124 0, 127, stageB2.drop 127, (passC2.take 125).reverse) = (passC2.getD 249 0, 252, stageB2.drop 252, (passC2.take 250).reverse) := by decide

set_option maxRecDepth 12000 in
theorem hP22c2 : passSteps mixB 125 (passC2.getD 249 0, 252, stageB2.drop 252, (passC2.take 250).reverse) = (passC2.getD 374 0, 377, stageB2.drop 377, (passC2.take 375).reverse) := by decide

set_option maxRecDepth 12000 in
theorem hP22c3 : passSteps mixB 125 (passC2.getD 374 0, 377, stageB2.drop 377, (passC2.take 375).reverse) = (passC2.getD 499 0, 502, stageB2.drop 502, (passC2.take 500).reverse) := by decide

set_option maxRecDepth 12000 in
theorem hP22c4 : passSteps mixB 122 (passC2.getD 499 0, 502, stageB2.drop 502, (passC2.take 500).reverse) = (passC2.getD 621 0, 624, stageB2.drop 624, (passC2.take 622).reverse) := by decide

set_option maxRecDepth 12000 in
theorem hA2 : ibaLoop2 stageB2 = stageA2 := by
  simp only [ibaLoop2, passAll]
  rw [show (622 : ℕ) = 125 + (125 + (125 + (125 + 122))) from rfl]
  rw [passSteps_add, hP22c0, passSteps_add, hP22c1, passSteps_add, hP22c2, passSteps_add, hP22c3, hP22c4]
  decide

set_option maxRecDepth 30000 in
theorem hT2 : mtTwist stageA2 = stageT2 := by decide

set_option maxRecDepth 30000 in
theorem hC2a : shuffleSteps 85 (⟨stageT2, 0⟩, List.range 256, 255) = (⟨stageT2, 120⟩, chunk2a, 170) := by decide

set_option maxRecDepth 30000 in
theorem hC2b : shuffleSteps 85 ((⟨stageT2, 120⟩, chunk2a, 170) : MTState × List ℕ × ℕ) = (⟨stageT2, 254⟩, chunk2b, 85) := by decide

set_option maxRecDepth 30000 in
theorem hC2c : shuffleSteps 85 ((⟨stageT2, 254⟩, chunk2b, 85) : MTState × List ℕ × ℕ) = (⟨stageT2, 380⟩, mtPermList2, 0) := by decide

theorem perm2_eq : pyPermOfSeed 2 = mtPermList2 := by
  unfold pyPermOfSeed mtSeedState initByArray1 ibaMix
  rw [hL0, hB2, hA2, hT2]
  rw [show (255 : ℕ) = 85 + (85 + 85) from rfl, shuffleSteps_add, hC2a,
    shuffleSteps_add, hC2b, hC2c]

/-! ### Supporting lemmas -/

theorem perm_mem_lt {shuffled : List ℕ} (h : shuffled.Perm (List.range 256)) :
    ∀ a ∈ shuffled, a < 256 := by
  intro a ha
  have := h.mem_iff.mp ha
  exact List.mem_range.mp this

theorem getD_lt_of_mem_lt {l : List ℕ} (h : ∀ a ∈ l, a < 256) (i : ℕ) :
    l.getD i 0 < 256 := by
  rcases Nat.lt_or_ge i l.length with hi | hi
  · rw [List.getD_eq_getElem?_getD, List.getElem?_eq_getElem hi]
    exact h _ (List.getElem_mem hi)
  · rw [List.getD_eq_getElem?_getD, List.getElem?_eq_none hi]
    decide

theorem permTable_mem_lt {shuffled : List ℕ} (h : shuffled.Perm (List.range 256)) :
    ∀ a ∈ permTable shuffled, a < 256 := by
  intro a ha
  rcases List.mem_append.mp ha with h' | h' <;> exact perm_mem_lt h a h'

theorem cellIndex_lt (x : ℚ) : cellIndex x < 256 := by
  unfold cellIndex
  have h1 : (pyint x).emod 256 < 256 := Int.emod_lt_of_pos _ (by norm_num)
  have h2 : 0 ≤ (pyint x).emod 256 := Int.emod_nonneg _ (by norm_num)
  omega

theorem pyint_of_nonneg {x : ℚ} (h : 0 ≤ x) : pyint x = ⌊x⌋ := if_pos h

theorem pyRoundHalfEven_nonneg {x : ℚ} (h : 0 ≤ x) : 0 ≤ pyRoundHalfEven x := by
  unfold pyRoundHalfEven
  have h1 : (0 : ℤ) ≤ ⌊x⌋ := Int.floor_nonneg.mpr h
  split_ifs <;> omega

theorem pyround2_nonneg {x : ℚ} (h : 0 ≤ x) : 0 ≤ pyround2 x := by
  unfold pyround2
  have := pyRoundHalfEven_nonneg (show (0:ℚ) ≤ 100 * x by linarith)
  positivity

theorem cellHeight_nonneg (p : List ℕ) (c : Coordinates) (xi yi : ℕ) :
    0 ≤ cellHeight p c xi yi :=
  pyround2_nonneg (le_max_left 0 _)

theorem perlinHeightMap_shape (p : List ℕ) (c : Coordinates) (size : ℕ) :
    (perlinHeightMap p c size).length = size ∧
      ∀ row ∈ perlinHeightMap p c size, row.length = size := by
  constructor
  · simp [perlinHeightMap]
  · intro row hrow
    simp only [perlinHeightMap, List.mem_map] at hrow
    obtain ⟨y, _, rfl⟩ := hrow
    simp

/-- Inversion of a successful generate_terrain call: the height map came from
the Perlin sampler over some noise table, the biome list from analyzing it,
and the stored algorithm and seed fields are as assembled. -/
theorem generateTerrain_ok_inv {shuffleOf : ℕ → List ℕ} {draw : ℕ} {c : Coordinates}
    {alg : String} {seed : Option ℤ} {size : ℕ} {r : TerrainResult}
    (h : generateTerrain shuffleOf draw c alg seed size = .ok r) :
    ∃ p, mkNoiseGen shuffleOf draw seed = .ok p ∧
      r.heightMap = perlinHeightMap p c size ∧
      analyzeBiomes (perlinHeightMap p c size) c = some r.biomes ∧
      r.algorithm = alg ∧ r.seed = seed.getD 0 := by
  unfold generateTerrain at h
  split at h
  · exact absurd h (by simp)
  · rw [generateDiamondSquareTerrain, generateSimplexTerrain, ite_self, ite_self] at h
    unfold generatePerlinTerrain at h
    cases hmk : mkNoiseGen shuffleOf draw seed with
    | error e => rw [hmk] at h; exact absurd h (by simp [Except.map])
    | ok p =>
      rw [hmk] at h
      simp only [Except.map] at h
      unfold finishTerrain at h
      cases hab : analyzeBiomes (perlinHeightMap p c size) c with
      | none => rw [hab] at h; exact absurd h (by simp)
      | some bs =>
        rw [hab] at h
        refine ⟨p, rfl, ?_, ?_, ?_, ?_⟩ <;>
          simp only [Except.ok.injEq] at h <;> rw [← h] <;> simp [hab]

/-! ### C3 (amended): determinism for a nonzero fixed seed -/

theorem effectiveSeed_some_of_ne {s : ℤ} (h : s ≠ 0) (d : ℕ) :
    effectiveSeed d (some s) = s := by
  simp [effectiveSeed, h]

/-- C3 (amended): for a fixed nonzero integer seed, the output of
generate_terrain does not depend on the random draw that Python's
`seed or random.randint(0, 10000)` would fall back to, hence two independent
calls agree bit for bit. -/
theorem generateTerrain_deterministic (shuffleOf : ℕ → List ℕ) (d1 d2 : ℕ)
    (c : Coordinates) (alg : String) (s : ℤ) (size : ℕ) (h : s ≠ 0) :
    generateTerrain shuffleOf d1 c alg (some s) size =
      generateTerrain shuffleOf d2 c alg (some s) size := by
  unfold generateTerrain generateDiamondSquareTerrain generateSimplexTerrain
    generatePerlinTerrain mkNoiseGen
  rw [effectiveSeed_some_of_ne h d1, effectiveSeed_some_of_ne h d2]

/-! ### C4: truncation-based versus floor-based cell coordinates -/

/-- C4 (amended): the noise grid-cell index is `int(x) & 255` with int()
truncating toward zero, and the offset is `x - int(x)`; these agree with the
spec's floor-based formulas exactly on nonnegative inputs, and the function
stays well defined on all inputs (index below 256, offset strictly between
-1 and 1). -/
theorem cellIndex_spec_agreement (x : ℚ) :
    (0 ≤ x → cellIndex x = specXi x ∧ fracPart x = specFrac x) ∧
    cellIndex x < 256 ∧ -1 < fracPart x ∧ fracPart x < 1 := by
  refine ⟨fun h => ?_, cellIndex_lt x, ?_, ?_⟩
  · rw [cellIndex, specXi, fracPart, specFrac, pyint_of_nonneg h]
    exact ⟨rfl, rfl⟩
  · unfold fracPart pyint
    split_ifs with h
    · have := Int.floor_le x
      linarith
    · have := Int.ceil_lt_add_one x
      linarith
  · unfold fracPart pyint
    split_ifs with h
    · have := Int.lt_floor_add_one x
      linarith
    · have := Int.le_ceil x
      linarith

/-! ### C7: octave amplitudes and frequencies -/

/-- C7: after n octaves the loop state has amplitude 100·(1/2)^n and
frequency 2^n, each successive amplitude is strictly half the previous one,
and the accumulated height is the sum over octave i of
noise((px·0.1)·2^i, (py·0.1)·2^i) · (100·(1/2)^i). -/
theorem octave_amplitudes (p : List ℕ) (px py : ℚ) (n : ℕ) :
    (octaves p px py n).2.1 = 100 * (1/2)^n ∧
    (octaves p px py n).2.2 = 2^n ∧
    (octaves p px py (n+1)).2.1 = (octaves p px py n).2.1 / 2 ∧
    (octaves p px py (n+1)).2.1 < (octaves p px py n).2.1 ∧
    (octaves p px py n).1 =
      ((List.range n).map fun i =>
        noise p (px * (1/10) * 2^i) (py * (1/10) * 2^i) * (100 * (1/2)^i)).sum := by
  have key : ∀ m, (octaves p px py m).2.1 = 100 * (1/2)^m ∧
      (octaves p px py m).2.2 = 2^m ∧
      (octaves p px py m).1 =
        ((List.range m).map fun i =>
          noise p (px * (1/10) * 2^i) (py * (1/10) * 2^i) * (100 * (1/2)^i)).sum := by
    intro m
    induction m with
    | zero => simp [octaves]
    | succ k ih =>
      obtain ⟨ha, hf, hh⟩ := ih
      refine ⟨?_, ?_, ?_⟩
      · show (octaves p px py k).2.1 * (1/2) = _
        rw [ha]; ring
      · show (octaves p px py k).2.2 * 2 = _
        rw [hf]; ring
      · show (octaves p px py k).1 + noise p _ _ * (octaves p px py k).2.1 = _
        rw [hh, ha, hf, List.range_succ]
        simp [mul_comm]
  obtain ⟨ha, hf, hh⟩ := key n
  obtain ⟨ha', _, _⟩ := key (n + 1)
  refine ⟨ha, hf, ?_, ?_, hh⟩
  · rw [ha, ha']; ring
  · rw [ha, ha', pow_succ]
    have h0 : (0:ℚ) < (1/2)^n := by positivity
    nlinarith

/-! ### C8: placeholder algorithms delegate to the Perlin implementation -/

/-- C8: "diamond_square" and "simplex_noise" produce the same height map as
"perlin_noise" on identical inputs: both named generators delegate to the
Perlin implementation. -/
theorem alternate_algorithms_same_heightMap (shuffleOf : ℕ → List ℕ) (draw : ℕ)
    (c : Coordinates) (seed : Option ℤ) (size : ℕ) :
    (generateTerrain shuffleOf draw c "diamond_square" seed size).map TerrainResult.heightMap =
      (generateTerrain shuffleOf draw c "perlin_noise" seed size).map TerrainResult.heightMap ∧
    (generateTerrain shuffleOf draw c "simplex_noise" seed size).map TerrainResult.heightMap =
      (generateTerrain shuffleOf draw c "perlin_noise" seed size).map TerrainResult.heightMap := by
  unfold generateTerrain generateDiamondSquareTerrain generateSimplexTerrain
  norm_num [supportedAlgorithms]
  unfold generatePerlinTerrain
  cases hmk : mkNoiseGen shuffleOf draw seed with
  | error e => simp [Except.map]
  | ok p =>
    simp only [Except.map]
    unfold finishTerrain
    cases hab : analyzeBiomes (perlinHeightMap p c size) c with
    | none => simp
    | some bs => simp [Except.map]

/-! ### C5: unknown algorithm names fail; successful requests are complete -/

/-- C5: a request with an algorithm name outside the declared table fails
with the unknown-algorithm error and no result; a request that returns ok
carries a complete size × size height map and the biome list computed from
it (all-or-nothing). -/
theorem unknown_algorithm_fails (shuffleOf : ℕ → List ℕ) (draw : ℕ) (c : Coordinates)
    (alg : String) (seed : Option ℤ) (size : ℕ) :
    (alg ∉ supportedAlgorithms →
      generateTerrain shuffleOf draw c alg seed size =
        .error ("Unknown algorithm: " ++ alg)) ∧
    (∀ r, generateTerrain shuffleOf draw c alg seed size = .ok r →
      r.heightMap.length = size ∧ (∀ row ∈ r.heightMap, row.length = size) ∧
      analyzeBiomes r.heightMap c = some r.biomes) := by
  constructor
  · intro h
    unfold generateTerrain
    rw [if_pos h]
  · intro r h
    obtain ⟨p, _, hhm, hab, _, _⟩ := generateTerrain_ok_inv h
    rw [hhm]
    exact ⟨(perlinHeightMap_shape p c size).1, (perlinHeightMap_shape p c size).2, hab⟩

/-! ### C6: all stored heights are nonnegative -/

/-- C6: every cell of every height map produced by a successful
generate_terrain call is ≥ 0 (clamped by max(0, ·) before rounding). -/
theorem heights_nonneg {shuffleOf : ℕ → List ℕ} {draw : ℕ} {c : Coordinates}
    {alg : String} {seed : Option ℤ} {size : ℕ} {r : TerrainResult}
    (h : generateTerrain shuffleOf draw c alg seed size = .ok r) :
    ∀ row ∈ r.heightMap, ∀ q ∈ row, 0 ≤ q := by
  obtain ⟨p, _, hhm, _, _, _⟩ := generateTerrain_ok_inv h
  rw [hhm]
  intro row hrow q hq
  simp only [perlinHeightMap, List.mem_map] at hrow
  obtain ⟨y, _, rfl⟩ := hrow
  simp only [List.mem_map] at hq
  obtain ⟨x, _, rfl⟩ := hq
  exact cellHeight_nonneg p c x y

/-! ### C10: the permutation table and every noise lookup stay in bounds -/

/-- C10: for a table built from any permutation of 0..255, the duplicated
table has 512 entries with the upper copy equal to the lower one, every
entry is below 256, and every index at which noise subscripts the table is
below 512, so noise is total. -/
theorem noise_lookups_inbounds (shuffled : List ℕ)
    (h : shuffled.Perm (List.range 256)) (x y : ℚ) :
    (permTable shuffled).length = 512 ∧
    (∀ i < 256, (permTable shuffled).getD (i + 256) 0 = (permTable shuffled).getD i 0) ∧
    (∀ v ∈ permTable shuffled, v < 256) ∧
    (∀ i ∈ noiseIndices (permTable shuffled) x y, i < 512) := by
  have hlen : shuffled.length = 256 := by rw [h.length_eq, List.length_range]
  have hmem := permTable_mem_lt h
  have hgd : ∀ i, (permTable shuffled).getD i 0 < 256 := getD_lt_of_mem_lt hmem
  refine ⟨?_, ?_, hmem, ?_⟩
  · simp [permTable, hlen]
  · intro i hi
    unfold permTable
    rw [List.getD_eq_getElem?_getD, List.getD_eq_getElem?_getD,
      List.getElem?_append_right (by omega), hlen,
      List.getElem?_append_left (by omega),
      show i + 256 - 256 = i from by omega]
  · intro i hi
    have hx := cellIndex_lt x
    have hy := cellIndex_lt y
    have hA : cornerA (permTable shuffled) x y ≤ 510 := by
      unfold cornerA
      have := hgd (cellIndex x)
      omega
    have hB : cornerB (permTable shuffled) x y ≤ 510 := by
      unfold cornerB
      have := hgd (cellIndex x + 1)
      omega
    have hg1 := hgd (cornerA (permTable shuffled) x y)
    have hg2 := hgd (cornerA (permTable shuffled) x y + 1)
    have hg3 := hgd (cornerB (permTable shuffled) x y)
    have hg4 := hgd (cornerB (permTable shuffled) x y + 1)
    simp only [noiseIndices, List.mem_cons, List.not_mem_nil, or_false] at hi
    rcases hi with rfl|rfl|rfl|rfl|rfl|rfl|rfl|rfl|rfl|rfl <;> omega

/-! ### C9: the desert branch is unreachable -/

theorem humidity_bounds (y : ℚ) : 1/2 ≤ humidity y ∧ humidity y < 1 := by
  unfold humidity pymod
  have hf1 : ((⌊y / 100⌋ : ℚ)) ≤ y / 100 := Int.floor_le _
  have hf2 : y / 100 < ⌊y / 100⌋ + 1 := Int.lt_floor_add_one _
  constructor <;> nlinarith [hf1, hf2]

theorem landSeg_type_forest (c : Coordinates) (cov : ℚ)
    (hnot : ¬(25 < landTemperature c.z ∧ humidity c.y < 3/10)) :
    (landSeg c cov).type = "forest" := by
  unfold landSeg
  rw [if_neg hnot]

/-- C9: the land humidity 0.5 + (y mod 100)·0.005 lies in [0.5, 1), so the
desert condition `temperature > 25 and humidity < 0.3` never holds and every
emitted biome segment is ocean, mountain or forest — never desert. -/
theorem land_biome_never_desert (hm : List (List ℚ)) (c : Coordinates)
    (bs : List BiomeInfo) (h : analyzeBiomes hm c = some bs) :
    (1/2 ≤ humidity c.y ∧ humidity c.y < 1) ∧
    ¬(25 < landTemperature c.z ∧ humidity c.y < 3/10) ∧
    ∀ b ∈ bs, b.type ≠ "desert" ∧
      (b.type = "ocean" ∨ b.type = "mountain" ∨ b.type = "forest") := by
  have hhum := humidity_bounds c.y
  have hnot : ¬(25 < landTemperature c.z ∧ humidity c.y < 3/10) := by
    rintro ⟨-, h3⟩
    linarith [hhum.1]
  refine ⟨hhum, hnot, ?_⟩
  unfold analyzeBiomes at h
  cases hfl : hm.flatten with
  | nil =>
    rw [hfl] at h
    exact absurd h (by simp)
  | cons h0 rest =>
    rw [hfl] at h
    simp only [Option.some.injEq] at h
    subst h
    intro b hb
    rcases List.mem_append.mp hb with hb' | hb'
    · rcases List.mem_append.mp hb' with hb'' | hb''
      · split at hb''
        · rw [List.mem_singleton] at hb''
          subst hb''
          exact ⟨by simp [oceanSeg], Or.inl rfl⟩
        · exact absurd hb'' (List.not_mem_nil b)
      · split at hb''
        · rw [List.mem_singleton] at hb''
          subst hb''
          exact ⟨by simp [mountainSeg], Or.inr (Or.inl rfl)⟩
        · exact absurd hb'' (List.not_mem_nil b)
    · split at hb'
      · rw [List.mem_singleton] at hb'
        subst hb'
        refine ⟨?_, Or.inr (Or.inr (landSeg_type_forest _ _ hnot))⟩
        rw [landSeg_type_forest _ _ hnot]
        simp
      · exact absurd hb' (List.not_mem_nil b)

/-! ### C1: a 1×1 grid -/

/-- On a single-cell height map the water and mountain thresholds both equal
the unique height, so that cell counts as both ocean and mountain, the land
count is -1, and exactly the two segments ocean and mountain are emitted,
each with coverage 1. -/
theorem analyzeBiomes_single (v : ℚ) (c : Coordinates) :
    analyzeBiomes [[v]] c = some [oceanSeg c v 1, mountainSeg c v 1] := by
  unfold analyzeBiomes
  norm_num [waterCells, mountainCells, landCells, waterLevel, mountainLevel,
    minHeight, maxHeight, List.flatten, List.filter, le_refl]

/-- C1 (amended): with grid_size = 1 a successful generate_terrain call
returns a 1×1 height map and exactly two biome segments, ocean then
mountain, each with coverage 1. -/
theorem grid_size_one (shuffleOf : ℕ → List ℕ) (draw : ℕ) (c : Coordinates)
    (alg : String) (seed : Option ℤ) (r : TerrainResult)
    (h : generateTerrain shuffleOf draw c alg seed 1 = .ok r) :
    r.heightMap.length = 1 ∧ (∀ row ∈ r.heightMap, row.length = 1) ∧
    r.biomes.map BiomeInfo.type = ["ocean", "mountain"] ∧
    ∀ b ∈ r.biomes, b.coverage = 1 := by
  obtain ⟨p, _, hhm, hab, _, _⟩ := generateTerrain_ok_inv h
  have h1 : perlinHeightMap p c 1 = [[cellHeight p c 0 0]] := by
    simp [perlinHeightMap, List.range_succ]
  rw [h1, analyzeBiomes_single] at hab
  simp only [Option.some.injEq] at hab
  rw [hhm, h1, ← hab]
  refine ⟨rfl, ?_, rfl, ?_⟩
  · intro row hrow
    rw [List.mem_singleton] at hrow
    subst hrow
    rfl
  · intro b hb
    rcases List.mem_cons.mp hb with rfl | hb'
    · rfl
    · rcases List.mem_cons.mp hb' with rfl | hb''
      · rfl
      · exact absurd hb'' (List.not_mem_nil b)

/-! ### C2: the coverage fractions of the emitted segments -/

theorem minHeight_le (h0 : ℚ) (rest : List ℚ) :
    ∀ a ∈ h0 :: rest, minHeight h0 rest ≤ a := by
  unfold minHeight
  induction rest generalizing h0 with
  | nil =>
    intro a ha
    rw [List.mem_singleton] at ha
    subst ha
    exact le_refl _
  | cons b t ih =>
    intro a ha
    rcases List.mem_cons.mp ha with rfl | ha'
    · exact le_trans (ih (min a b) _ (List.mem_cons_self _ _)) (min_le_left a b)
    · rcases List.mem_cons.mp ha' with rfl | ha''
      · exact le_trans (ih (min h0 a) _ (List.mem_cons_self _ _)) (min_le_right h0 a)
      · exact ih (min h0 b) a (List.mem_cons_of_mem _ ha'')

theorem le_maxHeight (h0 : ℚ) (rest : List ℚ) :
    ∀ a ∈ h0 :: rest, a ≤ maxHeight h0 rest := by
  unfold maxHeight
  induction rest generalizing h0 with
  | nil =>
    intro a ha
    rw [List.mem_singleton] at ha
    subst ha
    exact le_refl _
  | cons b t ih =>
    intro a ha
    rcases List.mem_cons.mp ha with rfl | ha'
    · exact le_trans (le_max_left a b) (ih (max a b) _ (List.mem_cons_self _ _))
    · rcases List.mem_cons.mp ha' with rfl | ha''
      · exact le_trans (le_max_right h0 a) (ih (max h0 a) _ (List.mem_cons_self _ _))
      · exact ih (max h0 b) a (List.mem_cons_of_mem _ ha'')

theorem minHeight_mem (h0 : ℚ) (rest : List ℚ) : minHeight h0 rest ∈ h0 :: rest := by
  unfold minHeight
  induction rest generalizing h0 with
  | nil => exact List.mem_singleton.mpr rfl
  | cons b t ih =>
    show List.foldl min (min h0 b) t ∈ h0 :: b :: t
    have := ih (min h0 b)
    rcases List.mem_cons.mp this with he | ht
    · rcases min_choice h0 b with hc | hc <;> rw [he, hc]
      · exact List.mem_cons_self _ _
      · exact List.mem_cons_of_mem _ (List.mem_cons_self _ _)
    · exact List.mem_cons_of_mem _ (List.mem_cons_of_mem _ ht)

theorem maxHeight_mem (h0 : ℚ) (rest : List ℚ) : maxHeight h0 rest ∈ h0 :: rest := by
  unfold maxHeight
  induction rest generalizing h0 with
  | nil => exact List.mem_singleton.mpr rfl
  | cons b t ih =>
    show List.foldl max (max h0 b) t ∈ h0 :: b :: t
    have := ih (max h0 b)
    rcases List.mem_cons.mp this with he | ht
    · rcases max_choice h0 b with hc | hc <;> rw [he, hc]
      · exact List.mem_cons_self _ _
      · exact List.mem_cons_of_mem _ (List.mem_cons_self _ _)
    · exact List.mem_cons_of_mem _ (List.mem_cons_of_mem _ ht)

theorem filter_disjoint_length_le (l : List ℚ) (p q : ℚ → Bool)
    (h : ∀ a ∈ l, ¬(p a = true ∧ q a = true)) :
    (l.filter p).length + (l.filter q).length ≤ l.length := by
  induction l with
  | nil => simp
  | cons a t ih =>
    have iht := ih fun b hb => h b (List.mem_cons_of_mem a hb)
    have ha := h a (List.mem_cons_self a t)
    by_cases hp : p a = true <;> by_cases hq : q a = true
    · exact absurd ⟨hp, hq⟩ ha
    · simp [List.filter_cons, hp, hq]
      omega
    · simp [List.filter_cons, hp, hq]
      omega
    · simp [List.filter_cons, hp, hq]
      omega

theorem flatten_length_square (hm : List (List ℚ))
    (hsq : ∀ row ∈ hm, row.length = hm.length) :
    hm.flatten.length = hm.length * hm.length := by
  rw [List.length_flatten]
  have key : ∀ (L : List (List ℚ)) (n : ℕ), (∀ row ∈ L, row.length = n) →
      (L.map List.length).sum = L.length * n := by
    intro L n hL
    induction L with
    | nil => simp
    | cons r tl ih =>
      have h1 := hL r (List.mem_cons_self r tl)
      have h2 := ih fun row hr => hL row (List.mem_cons_of_mem r hr)
      simp only [List.map_cons, List.sum_cons, h1, h2, List.length_cons]
      ring
  exact key hm hm.length hsq

theorem oceanSeg_coverage (c : Coordinates) (avg cov : ℚ) :
    (oceanSeg c avg cov).coverage = cov := rfl

theorem mountainSeg_coverage (c : Coordinates) (mx cov : ℚ) :
    (mountainSeg c mx cov).coverage = cov := rfl

/-- The coverage sum over the three conditionally emitted segments. -/
theorem coverage_sum_shape (P Q R : Prop) [Decidable P] [Decidable Q] [Decidable R]
    (b1 b2 b3 : BiomeInfo) :
    ((((if P then [b1] else []) ++ (if Q then [b2] else []) ++
        (if R then [b3] else [])).map BiomeInfo.coverage)).sum =
      (if P then b1.coverage else 0) + (if Q then b2.coverage else 0) +
        (if R then b3.coverage else 0) := by
  split_ifs <;> simp <;> ring

theorem landSeg_coverage (c : Coordinates) (cov : ℚ) : (landSeg c cov).coverage = cov := by
  unfold landSeg
  split <;> rfl

/-- C2 (amended): over any square height map, when at least two cell heights
differ the water / mountain / land classes partition the cells and the
emitted coverages sum to exactly 1; when all cells are equal, every cell
counts as both ocean and mountain and the coverages sum to 2. -/
theorem analyzeBiomes_coverage_sum (hm : List (List ℚ)) (c : Coordinates)
    (bs : List BiomeInfo) (hsq : ∀ row ∈ hm, row.length = hm.length)
    (h : analyzeBiomes hm c = some bs) :
    ((∃ a ∈ hm.flatten, ∃ b ∈ hm.flatten, a ≠ b) →
      (bs.map BiomeInfo.coverage).sum = 1) ∧
    ((∀ a ∈ hm.flatten, ∀ b ∈ hm.flatten, a = b) →
      (bs.map BiomeInfo.coverage).sum = 2) := by
  unfold analyzeBiomes at h
  cases hfl : hm.flatten with
  | nil =>
    rw [hfl] at h
    exact absurd h (by simp)
  | cons h0 rest =>
    rw [hfl] at h
    simp only [Option.some.injEq] at h
    subst h
    rw [coverage_sum_shape]
    have htot : hm.length * hm.length = (h0 :: rest).length := by
      rw [← flatten_length_square hm hsq, hfl]
    have hNpos : 0 < (h0 :: rest).length := List.length_pos.mpr (by simp)
    have hmnle := minHeight_le h0 rest
    have hlemx := le_maxHeight h0 rest
    have hmnmem := minHeight_mem h0 rest
    have hmxmem := maxHeight_mem h0 rest
    set N := (h0 :: rest).length with hN
    constructor
    · rintro ⟨a, ha, b, hb, hab⟩
      -- two distinct heights force min < max
      have hmnmx : minHeight h0 rest < maxHeight h0 rest := by
        rcases lt_or_le (minHeight h0 rest) (maxHeight h0 rest) with hlt | hle
        · exact hlt
        · exfalso
          apply hab
          have h1 : a = minHeight h0 rest :=
            le_antisymm (le_trans (hlemx a ha) hle) (hmnle a ha)
          have h2 : b = minHeight h0 rest :=
            le_antisymm (le_trans (hlemx b hb) hle) (hmnle b hb)
          rw [h1, h2]
      -- at least one water cell (the minimum) and one mountain cell (the maximum)
      have hwpos : 0 < waterCells h0 rest := by
        apply List.length_pos.mpr
        apply List.ne_nil_of_mem (a := minHeight h0 rest)
        apply List.mem_filter.mpr
        refine ⟨hmnmem, decide_eq_true ?_⟩
        unfold waterLevel
        nlinarith [hmnmx]
      have hmpos : 0 < mountainCells h0 rest := by
        apply List.length_pos.mpr
        apply List.ne_nil_of_mem (a := maxHeight h0 rest)
        apply List.mem_filter.mpr
        refine ⟨hmxmem, decide_eq_true ?_⟩
        unfold mountainLevel
        nlinarith [hmnmx]
      -- the two filters are disjoint, so their counts fit in N
      have hwm : waterCells h0 rest + mountainCells h0 rest ≤ N := by
        unfold waterCells mountainCells
        apply filter_disjoint_length_le
        rintro a - ⟨h1, h2⟩
        rw [decide_eq_true_eq] at h1 h2
        unfold waterLevel at h1
        unfold mountainLevel at h2
        nlinarith [hmnmx]
      rw [if_pos hwpos, if_pos hmpos, oceanSeg_coverage, mountainSeg_coverage, landSeg_coverage]
      have hNz : ((N : ℚ)) ≠ 0 := by positivity
      rw [htot]
      by_cases hland : 0 < landCells N h0 rest
      · rw [if_pos hland]
        unfold landCells
        rw [show (((N : ℤ) - waterCells h0 rest - mountainCells h0 rest : ℤ) : ℚ) =
            (N : ℚ) - waterCells h0 rest - mountainCells h0 rest by push_cast; ring]
        field_simp
      · rw [if_neg hland]
        unfold landCells at hland
        have hl0 : waterCells h0 rest + mountainCells h0 rest = N := by omega
        have : ((waterCells h0 rest : ℚ)) + (mountainCells h0 rest : ℚ) = (N : ℚ) := by
          exact_mod_cast hl0
        field_simp
        linarith [this]
    · intro hall
      -- all heights are equal, hence equal to the minimum
      have hmneq : ∀ a ∈ h0 :: rest, a = minHeight h0 rest := by
        intro a ha
        exact hall a ha (minHeight h0 rest) hmnmem
      have hmxeq : maxHeight h0 rest = minHeight h0 rest := hmneq _ hmxmem
      have hwfull : waterCells h0 rest = N := by
        unfold waterCells
        rw [List.filter_eq_self.mpr]
        intro a ha
        rw [decide_eq_true_eq, hmneq a ha]
        unfold waterLevel
        rw [hmxeq]
        ring_nf
        exact le_refl _
      have hmfull : mountainCells h0 rest = N := by
        unfold mountainCells
        rw [List.filter_eq_self.mpr]
        intro a ha
        rw [decide_eq_true_eq, hmneq a ha]
        unfold mountainLevel
        rw [hmxeq]
        ring_nf
        exact le_refl _
      rw [htot]
      have hlneg : ¬(0 < landCells N h0 rest) := by
        unfold landCells
        rw [hwfull, hmfull]
        omega
      rw [hwfull, hmfull, if_pos hNpos, if_pos hNpos, if_neg hlneg,
        oceanSeg_coverage, mountainSeg_coverage]
      have hNz : ((N : ℚ)) ≠ 0 := by positivity
      field_simp
      ring

/-! ### Concrete runs

The following evaluation lemmas run generate_terrain on the exact
permutations that CPython produces for seeds 1 and 2 (perm1_eq, perm2_eq).
The first step of each proof is a definitional reduction that resolves the
algorithm dispatch and the noise-generator construction without unfolding
the permutation, after which the CPython table is substituted and the run
is evaluated. -/

set_option maxRecDepth 40000 in
theorem genEval1 :
    generateTerrain pyPermOfSeed 0 ⟨0, 0, 0⟩ "perlin_noise" (some 1) 1 =
      .ok ⟨[[0]],
        [⟨"ocean", 1,
           [("depth", .num 0), ("salinity", .num (7/200)), ("temperature", .num 25)]⟩,
         ⟨"mountain", 1,
           [("elevation", .num 0), ("rockType", .str "granite"), ("snowLine", .num 0)]⟩],
        "perlin_noise", 1⟩ := by
  have h1 : generateTerrain pyPermOfSeed 0 ⟨0, 0, 0⟩ "perlin_noise" (some 1) 1 =
      finishTerrain ⟨0, 0, 0⟩ "perlin_noise" 1
        (perlinHeightMap (permTable (pyPermOfSeed 1)) ⟨0, 0, 0⟩ 1) := rfl
  rw [h1, perm1_eq]
  with_unfolding_all rfl

set_option maxRecDepth 40000 in
theorem genEval0a :
    generateTerrain pyPermOfSeed 1 ⟨37, 53, 500⟩ "perlin_noise" (some 0) 2 =
      .ok ⟨[[3137/100, 0], [3453/100, 173/100]],
        [⟨"ocean", 1/2,
           [("depth", .num (169/20)), ("salinity", .num (7/200)), ("temperature", .num 20)]⟩,
         ⟨"mountain", 1/2,
           [("elevation", .num (3453/100)), ("rockType", .str "limestone"),
            ("snowLine", .num (1381/50))]⟩],
        "perlin_noise", 0⟩ := by
  have h1 : generateTerrain pyPermOfSeed 1 ⟨37, 53, 500⟩ "perlin_noise" (some 0) 2 =
      finishTerrain ⟨37, 53, 500⟩ "perlin_noise" 0
        (perlinHeightMap (permTable (pyPermOfSeed 1)) ⟨37, 53, 500⟩ 2) := rfl
  rw [h1, perm1_eq]
  with_unfolding_all rfl

set_option maxRecDepth 40000 in
theorem genEval0b :
    generateTerrain pyPermOfSeed 2 ⟨37, 53, 500⟩ "perlin_noise" (some 0) 2 =
      .ok ⟨[[3563/100, 178/5], [2957/100, 1481/50]],
        [⟨"ocean", 1/2,
           [("depth", .num (163/10)), ("salinity", .num (7/200)), ("temperature", .num 20)]⟩,
         ⟨"mountain", 1/2,
           [("elevation", .num (3563/100)), ("rockType", .str "limestone"),
            ("snowLine", .num (57/2))]⟩],
        "perlin_noise", 0⟩ := by
  have h1 : generateTerrain pyPermOfSeed 2 ⟨37, 53, 500⟩ "perlin_noise" (some 0) 2 =
      finishTerrain ⟨37, 53, 500⟩ "perlin_noise" 0
        (perlinHeightMap (permTable (pyPermOfSeed 2)) ⟨37, 53, 500⟩ 2) := rfl
  rw [h1, perm2_eq]
  with_unfolding_all rfl

/-! ### Counterexamples -/

set_option maxRecDepth 40000 in
/-- C1 counterexample: for seed 1 at the origin with grid_size 1 the biome
list has two segments, not one. -/
theorem grid_size_one_single_segment_cx :
    (generateTerrain pyPermOfSeed 0 ⟨0, 0, 0⟩ "perlin_noise" (some 1) 1).map
        (fun r => r.biomes.length) = .ok 2 ∧ (2 : ℕ) ≠ 1 := by
  refine ⟨?_, by decide⟩
  rw [genEval1]
  rfl

set_option maxRecDepth 40000 in
/-- C2 counterexample: the same run's coverage fractions sum to 2, which is
not at most 1. -/
theorem coverage_sum_le_one_cx :
    (generateTerrain pyPermOfSeed 0 ⟨0, 0, 0⟩ "perlin_noise" (some 1) 1).map
        (fun r => (r.biomes.map BiomeInfo.coverage).sum) = .ok 2 ∧ ¬((2 : ℚ) ≤ 1) := by
  refine ⟨?_, of_decide_eq_true (by with_unfolding_all rfl)⟩
  rw [genEval1]
  with_unfolding_all rfl

set_option maxRecDepth 40000 in
/-- C3 counterexample: with seed 0 the effective seed is the external random
draw (Python `0 or randint` is falsy), so two independent calls that draw 1
and 2 use different CPython permutations and return different height maps
and biome data. -/
theorem seed_zero_nondeterministic_cx :
    effectiveSeed 1 (some 0) ≠ effectiveSeed 2 (some 0) ∧
    generateTerrain pyPermOfSeed 1 ⟨37, 53, 500⟩ "perlin_noise" (some 0) 2 ≠
      generateTerrain pyPermOfSeed 2 ⟨37, 53, 500⟩ "perlin_noise" (some 0) 2 := by
  refine ⟨by decide, ?_⟩
  rw [genEval0a, genEval0b]
  exact of_decide_eq_true (by with_unfolding_all rfl)

set_option maxRecDepth 40000 in
/-- C4 counterexample: at x = -1/2 the code's truncation-based cell index
and offset differ from the spec's floor-based ones (0 versus 255 and -1/2
versus 1/2), and the noise value over the CPython seed-1 table differs from
the floor-based variant. -/
theorem trunc_vs_floor_cx :
    cellIndex (-(1/2)) ≠ specXi (-(1/2)) ∧
    cellIndex (-(1/2)) = 0 ∧ specXi (-(1/2)) = 255 ∧
    fracPart (-(1/2)) ≠ specFrac (-(1/2)) ∧
    fracPart (-(1/2)) = -(1/2) ∧ specFrac (-(1/2)) = 1/2 ∧
    noise (permTable mtPermList1) (-(1/2)) 0 ≠
      noiseFloorSpec (permTable mtPermList1) (-(1/2)) 0 := by
  exact of_decide_eq_true (by with_unfolding_all rfl)

/-! ### Witnesses -/

theorem grid_size_one_witness :
    (⟨[[0]],
      [⟨"ocean", 1,
         [("depth", .num 0), ("salinity", .num (7/200)), ("temperature", .num 25)]⟩,
       ⟨"mountain", 1,
         [("elevation", .num 0), ("rockType", .str "granite"), ("snowLine", .num 0)]⟩],
      "perlin_noise", 1⟩ : TerrainResult).heightMap.length = 1 ∧
    (⟨[[0]],
      [⟨"ocean", 1,
         [("depth", .num 0), ("salinity", .num (7/200)), ("temperature", .num 25)]⟩,
       ⟨"mountain", 1,
         [("elevation", .num 0), ("rockType", .str "granite"), ("snowLine", .num 0)]⟩],
      "perlin_noise", 1⟩ : TerrainResult).biomes.map BiomeInfo.type = ["ocean", "mountain"] :=
  ⟨(grid_size_one pyPermOfSeed 0 ⟨0, 0, 0⟩ "perlin_noise" (some 1) _ genEval1).1,
   (grid_size_one pyPermOfSeed 0 ⟨0, 0, 0⟩ "perlin_noise" (some 1) _ genEval1).2.2.1⟩

set_option maxRecDepth 8000 in
theorem coverage_sum_witness :
    (([oceanSeg ⟨0, 0, 0⟩ (1/4) (3/4), mountainSeg ⟨0, 0, 0⟩ 1 (1/4)] : List BiomeInfo).map
        BiomeInfo.coverage).sum = 1 :=
  (analyzeBiomes_coverage_sum [[0, 1], [0, 0]] ⟨0, 0, 0⟩
    [oceanSeg ⟨0, 0, 0⟩ (1/4) (3/4), mountainSeg ⟨0, 0, 0⟩ 1 (1/4)]
    (by intro row hr; fin_cases hr <;> rfl)
    (by with_unfolding_all rfl)).1
    ⟨0, by simp, 1, by simp, by norm_num⟩

theorem deterministic_witness :
    generateTerrain pyPermOfSeed 3 ⟨1, 2, 3⟩ "perlin_noise" (some 42) 2 =
      generateTerrain pyPermOfSeed 4 ⟨1, 2, 3⟩ "perlin_noise" (some 42) 2 :=
  generateTerrain_deterministic pyPermOfSeed 3 4 ⟨1, 2, 3⟩ "perlin_noise" 42 2 (by decide)

theorem cellIndex_spec_agreement_witness :
    cellIndex (5/2) = specXi (5/2) ∧ fracPart (5/2) = specFrac (5/2) :=
  (cellIndex_spec_agreement (5/2)).1 (by norm_num)

theorem unknown_algorithm_witness :
    generateTerrain pyPermOfSeed 0 ⟨0, 0, 0⟩ "unknown_algo" (some 1) 4 =
      .error "Unknown algorithm: unknown_algo" :=
  (unknown_algorithm_fails pyPermOfSeed 0 ⟨0, 0, 0⟩ "unknown_algo" (some 1) 4).1 (by decide)

theorem heights_nonneg_witness : (0 : ℚ) ≤ 3563/100 :=
  heights_nonneg genEval0b [3563/100, 178/5] (by simp) (3563/100) (by simp)

set_option maxRecDepth 40000 in
theorem land_biome_never_desert_witness :
    (1/2 ≤ humidity 0 ∧ humidity 0 < 1) ∧
    ¬(25 < landTemperature 0 ∧ humidity 0 < 3/10) :=
  ⟨(land_biome_never_desert [[0]] ⟨0, 0, 0⟩ [oceanSeg ⟨0, 0, 0⟩ 0 1, mountainSeg ⟨0, 0, 0⟩ 0 1]
      (by with_unfolding_all rfl)).1,
   (land_biome_never_desert [[0]] ⟨0, 0, 0⟩ [oceanSeg ⟨0, 0, 0⟩ 0 1, mountainSeg ⟨0, 0, 0⟩ 0 1]
      (by with_unfolding_all rfl)).2.1⟩

set_option maxRecDepth 40000 in
theorem noise_lookups_inbounds_witness :
    (permTable (List.range 256)).length = 512 ∧ cellIndex ((3 : ℚ)/2) < 512 :=
  ⟨(noise_lookups_inbounds (List.range 256) (List.Perm.refl _) (3/2) (-(7/3))).1,
   (noise_lookups_inbounds (List.range 256) (List.Perm.refl _) (3/2) (-(7/3))).2.2.2
     (cellIndex ((3 : ℚ)/2)) (of_decide_eq_true (by with_unfolding_all rfl))⟩

end TerrainGen
